import Mathlib

/-!
Verification of the OpenClaw Hivemind protocol core.

This file is a shallow embedding of the single-process reference server
(`src/server.ts`, with `src/crypto.ts` and `src/protocol.ts`); the Durable
Object variant in `src/worker.ts` implements the same handlers.  Stateful
code becomes explicit state passing over `ServerState`; the wall clock is an
explicit `now : Int` (epoch milliseconds); JavaScript `NaN`-able numbers are
`Option Int` (with `none` playing NaN) and `undefined`-able strings are
`Option String`.  External library primitives (tweetnacl, bs58, base64
decoding, `Date.parse`, ISO formatting) are fields of a `Prims` parameter,
since their implementations are not part of this repository; everything the
repository itself implements is translated concretely.

The JS `Map` objects (`challenges`, `sessions`, `peerCursors`) are modelled
as association lists with `aset`/`aerase`/`alookup`; the `messageIds`
`Set<string>` of `server.ts` is always exactly the set of `uid`s of the
`messages` array (both are only mutated together inside `storeMessage`), so
the embedding checks uid membership against `messages` directly.
-/

/-! ## Association-list maps (JS `Map` model) -/

def alookup {α : Type} (l : List (String × α)) (k : String) : Option α :=
  match l with
  | [] => none
  | (k', v) :: t => if k' = k then some v else alookup t k

def aerase {α : Type} (l : List (String × α)) (k : String) : List (String × α) :=
  l.filter (fun p => p.1 ≠ k)

def aset {α : Type} (l : List (String × α)) (k : String) (v : α) : List (String × α) :=
  (k, v) :: aerase l k

/-! ## JS number and string helpers -/

/-- JS truthiness of a possibly-missing string: `undefined` and `""` are falsy. -/
def truthy : Option String → Bool
  | none => false
  | some s => !(s == "")

def digitVal (c : Char) : Option Nat :=
  if c.toNat ≥ 48 ∧ c.toNat ≤ 57 then some (c.toNat - 48) else none

def parseNatDigits : List Char → Nat → Option Nat
  | [], acc => some acc
  | c :: rest, acc =>
    match digitVal c with
    | some d => parseNatDigits rest (acc * 10 + d)
    | none => none

def parseDecInt : List Char → Option Int
  | [] => none
  | '-' :: rest =>
    match rest with
    | [] => none
    | _ => (parseNatDigits rest 0).map (fun n => -(n : Int))
  | l => (parseNatDigits l 0).map (fun n => (n : Int))

/-- Model of JS `Number(string)` restricted to integer-valued inputs:
`Number("") = 0`, an optionally-signed decimal integer parses, anything else
is NaN (`none`). -/
def jsNumber (s : String) : Option Int :=
  match s.data with
  | [] => some 0
  | l => parseDecInt l

/-- JS `Math.max` (NaN-propagating). -/
def jsMax (a b : Option Int) : Option Int :=
  match a, b with
  | some x, some y => some (max x y)
  | _, _ => none

/-- JS `Math.min` (NaN-propagating). -/
def jsMin (a b : Option Int) : Option Int :=
  match a, b with
  | some x, some y => some (min x y)
  | _, _ => none

/-- JS `Math.abs` on integers. -/
def jsAbs (x : Int) : Int := if x < 0 then -x else x

/-- JS `x >= y` where `x` may be NaN (any comparison with NaN is false). -/
def jsGeOpt : Option Int → Int → Bool
  | some v, s => v ≥ s
  | none, _ => false

/-- JS `x <= y` where `x` may be NaN (used by challenge cleanup). -/
def jsLeOpt : Option Int → Int → Bool
  | some v, s => v ≤ s
  | none, _ => false

/-- JS `arr.slice(-limit)` where `limit` may be NaN: `slice(-NaN)` is
`slice(0)`, i.e. the whole array; for a positive integer it keeps the last
`limit` elements. -/
def jsSliceLast {α : Type} (l : List α) : Option Int → List α
  | none => l
  | some k => l.drop (l.length - k.toNat)

/-! ## External crypto / date primitives (tweetnacl, bs58, base64, Date) -/

/-- `nacl.sign.publicKeyLength`. -/
def naclPublicKeyLength : Nat := 32

/-- `nacl.sign.detached.signatureLength`. -/
def naclSignatureLength : Nat := 64

/-- External primitives used by the server: byte-level decoding, the Ed25519
core verifier, and `Date` parsing/formatting.  Decoders return `none` where
the JS library would throw (caught by the source's `try`/`catch`) and
`dateParse` returns `none` where `Date.parse` returns NaN. -/
structure Prims where
  base64Decode : String → Option (List Nat)
  bs58Decode : String → Option (List Nat)
  utf8Encode : String → List Nat
  naclVerify : List Nat → List Nat → List Nat → Bool
  dateParse : String → Option Int
  isoOf : Int → String

/-- `verifyMessage` from `src/crypto.ts`: base64 signature, base58 public
key; any decode failure or length mismatch yields `false`. -/
def verifyMessage (pr : Prims) (message signature pubkey : String) : Bool :=
  match pr.base64Decode signature, pr.bs58Decode pubkey with
  | some sigBytes, some pubkeyBytes =>
    if pubkeyBytes.length ≠ naclPublicKeyLength then false
    else if sigBytes.length ≠ naclSignatureLength then false
    else pr.naclVerify (pr.utf8Encode message) sigBytes pubkeyBytes
  | _, _ => false

/-- `verifyEd25519Base64` from `src/crypto.ts`: both signature and public key
are base64; any decode failure or length mismatch yields `false`. -/
def verifyEd25519Base64 (pr : Prims) (message signatureBase64 publicKeyBase64 : String) : Bool :=
  match pr.base64Decode signatureBase64, pr.base64Decode publicKeyBase64 with
  | some sigBytes, some pubBytes =>
    if sigBytes.length ≠ naclSignatureLength then false
    else if pubBytes.length ≠ naclPublicKeyLength then false
    else pr.naclVerify (pr.utf8Encode message) sigBytes pubBytes
  | _, _ => false

/-- `isValidSolanaPublicKey` from `src/crypto.ts`. -/
def isValidSolanaPublicKey (pr : Prims) (pubkey : String) : Bool :=
  match pr.bs58Decode pubkey with
  | some bytes => bytes.length = naclPublicKeyLength
  | none => false

/-! ## Protocol constants and the canonical join message (`src/protocol.ts`) -/

def PROTOCOL_VERSION : String := "OPENCLAW_HIVEMIND_V1"

structure JoinMessageInput where
  agentId : String
  pubkey : String
  nonce : String
  hiveId : String
  challengeExpiresAt : String
  timestamp : String
deriving Repr, DecidableEq

/-- `buildJoinMessage` from `src/protocol.ts`: the fixed newline-joined
canonical sequence. -/
def buildJoinMessage (input : JoinMessageInput) : String :=
  String.intercalate "\n"
    [PROTOCOL_VERSION, input.agentId, input.pubkey, input.nonce,
     input.hiveId, input.challengeExpiresAt, input.timestamp]

/-! ## Data model (`src/server.ts` types and globals) -/

def CHALLENGE_TTL_MS : Int := 2 * 60 * 1000
def SESSION_TTL_MS : Int := 24 * 60 * 60 * 1000
def MAX_CLOCK_SKEW_MS : Int := 2 * 60 * 1000

structure Challenge where
  agentId : String
  pubkey : String
  nonce : String
  hiveId : String
  expiresAt : String
deriving Repr, DecidableEq

structure Session where
  agentId : String
  pubkey : String
  hiveId : String
  expiresAt : Int
deriving Repr, DecidableEq

inductive MsgSource where
  | local
  | gossip
deriving Repr, DecidableEq

/-- A stored hive message.  `createdAtMs` is `Option Int` because the gossip
normalisation can store `Date.parse` of an unparseable string (NaN); `agentId`
and `content` are `Option String` because the gossip pull path can store
records in which those fields were absent (`undefined`). -/
structure HiveMessage where
  id : Nat
  uid : String
  ts : String
  createdAtMs : Option Int
  agentId : Option String
  hiveId : String
  content : Option String
  channel : String
  source : MsgSource
deriving Repr, DecidableEq

/-- `Omit<HiveMessage, "id">`: the candidate passed to `storeMessage`. -/
structure MessageInput where
  uid : String
  ts : String
  createdAtMs : Option Int
  agentId : Option String
  hiveId : String
  content : Option String
  channel : String
  source : MsgSource
deriving Repr, DecidableEq

/-- The server's mutable globals, gathered into one state record. -/
structure ServerState where
  challenges : List (String × Challenge)
  sessions : List (String × Session)
  messages : List HiveMessage
  nextMessageId : Nat
  peerCursors : List (String × Int)
deriving Repr, DecidableEq

/-- Server configuration drawn from the environment. -/
structure Config where
  hiveId : String
  deviceProofRequired : Bool
  deviceProofTtlMs : Int
deriving Repr, DecidableEq

/-! ## Message store -/

/-- `storeMessage` from `src/server.ts`: dedup by `uid`, allocate the next
monotonic id, append.  Returns the stored record, or `none` when the uid is
already present (in which case the state is untouched). -/
def storeMessage (st : ServerState) (input : MessageInput) : Option HiveMessage × ServerState :=
  if st.messages.any (fun m => m.uid == input.uid) then (none, st)
  else
    let message : HiveMessage :=
      { id := st.nextMessageId, uid := input.uid, ts := input.ts,
        createdAtMs := input.createdAtMs, agentId := input.agentId,
        hiveId := input.hiveId, content := input.content,
        channel := input.channel, source := input.source }
    (some message,
      { st with
          messages := st.messages ++ [message],
          nextMessageId := st.nextMessageId + 1 })

/-! ## Simple HTTP response model -/

structure HttpResp where
  status : Nat
  error : Option String := none
  token : Option String := none
  sessionExpiresAt : Option Int := none
deriving Repr, DecidableEq

def badRequest (message : String) : HttpResp := { status := 400, error := some message }

def unauthorized (message : String) : HttpResp := { status := 401, error := some message }

/-! ## Challenge issuing (`POST /challenge`) -/

structure ChallengeBody where
  agent_id : Option String := none
  pubkey : Option String := none
  hive_id : Option String := none
deriving Repr, DecidableEq

/-- `cleanupChallenges`: opportunistic eviction of expired challenges
(`Date.parse(expiresAt) <= now`; NaN keeps the entry, as in JS). -/
def cleanupChallenges (pr : Prims) (now : Int) (l : List (String × Challenge)) :
    List (String × Challenge) :=
  l.filter (fun p => !jsLeOpt (pr.dateParse p.2.expiresAt) now)

/-- The `POST /challenge` handler.  `freshNonce` stands for `randomUUID()`. -/
def challengeHandler (cfg : Config) (pr : Prims) (st : ServerState) (now : Int)
    (freshNonce : String) (body : ChallengeBody) : HttpResp × ServerState :=
  if ¬(truthy body.agent_id ∧ truthy body.pubkey) then
    (badRequest "agent_id and pubkey are required", st)
  else if ¬ isValidSolanaPublicKey pr (body.pubkey.getD "") then
    (badRequest "pubkey is not a valid Solana public key", st)
  else
    let cleaned := cleanupChallenges pr now st.challenges
    let expiresAt := pr.isoOf (now + CHALLENGE_TTL_MS)
    let hiveId := body.hive_id.getD cfg.hiveId
    let challenge : Challenge :=
      { agentId := body.agent_id.getD "", pubkey := body.pubkey.getD "",
        nonce := freshNonce, hiveId := hiveId, expiresAt := expiresAt }
    ({ status := 200 }, { st with challenges := aset cleaned freshNonce challenge })

/-! ## Join (`POST /join`) -/

structure JoinBody where
  agent_id : Option String := none
  pubkey : Option String := none
  nonce : Option String := none
  signature : Option String := none
  timestamp : Option String := none
  hive_id : Option String := none
  expires_at : Option String := none
  openclaw_device_public_key : Option String := none
  openclaw_device_signature : Option String := none
  openclaw_device_nonce : Option String := none
  openclaw_device_signed_at : Option String := none
deriving Repr, DecidableEq

/-- `verifyOpenClawDeviceProof` from `src/server.ts`. -/
def verifyOpenClawDeviceProof (cfg : Config) (pr : Prims) (now : Int)
    (devicePublicKey deviceSignature deviceNonce deviceSignedAt : String) : Bool :=
  match pr.dateParse deviceSignedAt with
  | none => false
  | some signedAtMs =>
    if jsAbs (now - signedAtMs) > cfg.deviceProofTtlMs then false
    else verifyEd25519Base64 pr deviceNonce deviceSignature devicePublicKey

/-- Tail of the `/join` handler after all challenge / timestamp / device
checks passed: canonical-message signature check, single-use deletion of the
challenge, session minting.  `freshToken` stands for `randomUUID()`. -/
def joinFinish (pr : Prims) (st : ServerState) (now : Int) (freshToken : String)
    (body : JoinBody) (challenge : Challenge) (nonce : String) : HttpResp × ServerState :=
  if ¬ verifyMessage pr
      (buildJoinMessage
        { agentId := challenge.agentId, pubkey := challenge.pubkey,
          nonce := challenge.nonce, hiveId := challenge.hiveId,
          challengeExpiresAt := challenge.expiresAt,
          timestamp := body.timestamp.getD "" })
      (body.signature.getD "") challenge.pubkey then
    (unauthorized "invalid signature", st)
  else
    ({ status := 200, token := some freshToken,
       sessionExpiresAt := some (now + SESSION_TTL_MS) },
     { st with
         challenges := aerase st.challenges nonce,
         sessions := aset st.sessions freshToken
           { agentId := challenge.agentId, pubkey := challenge.pubkey,
             hiveId := challenge.hiveId, expiresAt := now + SESSION_TTL_MS } })

/-- The `POST /join` handler from `src/server.ts`, preconditions in source
order: required fields, nonce lookup, binding fields, challenge expiry
(which deletes the challenge), timestamp parse, clock skew, device proof,
then `joinFinish`. -/
def joinHandler (cfg : Config) (pr : Prims) (st : ServerState) (now : Int)
    (freshToken : String) (body : JoinBody) : HttpResp × ServerState :=
  if ¬(truthy body.agent_id ∧ truthy body.pubkey ∧ truthy body.nonce ∧
       truthy body.signature ∧ truthy body.timestamp) then
    (badRequest "agent_id, pubkey, nonce, signature, timestamp are required", st)
  else
    match alookup st.challenges (body.nonce.getD "") with
    | none => (unauthorized "challenge not found or expired", st)
    | some challenge =>
      if challenge.agentId ≠ body.agent_id.getD "" ∨ challenge.pubkey ≠ body.pubkey.getD "" then
        (unauthorized "challenge does not match agent_id or pubkey", st)
      else if challenge.hiveId ≠ body.hive_id.getD challenge.hiveId then
        (unauthorized "hive_id mismatch", st)
      else if challenge.expiresAt ≠ body.expires_at.getD challenge.expiresAt then
        (unauthorized "expires_at mismatch", st)
      else
        match pr.dateParse challenge.expiresAt with
        | none =>
          (unauthorized "challenge expired",
           { st with challenges := aerase st.challenges (body.nonce.getD "") })
        | some challengeExpiry =>
          if challengeExpiry < now then
            (unauthorized "challenge expired",
             { st with challenges := aerase st.challenges (body.nonce.getD "") })
          else
            match pr.dateParse (body.timestamp.getD "") with
            | none => (badRequest "timestamp must be an ISO string", st)
            | some timestampMs =>
              if jsAbs (now - timestampMs) > MAX_CLOCK_SKEW_MS then
                (unauthorized "timestamp outside allowed clock skew", st)
              else
                if cfg.deviceProofRequired ∨
                    (truthy body.openclaw_device_public_key ∨
                     truthy body.openclaw_device_signature ∨
                     truthy body.openclaw_device_nonce ∨
                     truthy body.openclaw_device_signed_at) then
                  if ¬(truthy body.openclaw_device_public_key ∧
                       truthy body.openclaw_device_signature ∧
                       truthy body.openclaw_device_nonce ∧
                       truthy body.openclaw_device_signed_at) then
                    (unauthorized "missing OpenClaw device proof fields", st)
                  else if ¬ verifyOpenClawDeviceProof cfg pr now
                      (body.openclaw_device_public_key.getD "")
                      (body.openclaw_device_signature.getD "")
                      (body.openclaw_device_nonce.getD "")
                      (body.openclaw_device_signed_at.getD "") then
                    (unauthorized "invalid OpenClaw device proof", st)
                  else joinFinish pr st now freshToken body challenge (body.nonce.getD "")
                else joinFinish pr st now freshToken body challenge (body.nonce.getD "")

/-! ## Reads (`GET /messages` and `GET /gossip/messages`) -/

/-- The message-selection core of `GET /messages` in `src/server.ts`, given
the session's hive: parse `since` (NaN falls back to 0), clamp `limit` with
`Math.min(200, Math.max(1, Number(limitParam)))` (NaN propagates!), filter to
the session's hive and `id > since`, and keep the last `limit` entries
(`filtered.slice(-limit)`). -/
def readSinceMessages (st : ServerState) (sessionHiveId : String)
    (sinceParam limitParam : Option String) : List HiveMessage :=
  let since := jsNumber (sinceParam.getD "0")
  let limit := jsMin (some 200) (jsMax (some 1) (jsNumber (limitParam.getD "50")))
  let effSince := since.getD 0
  let filtered := st.messages.filter
    (fun m => m.hiveId == sessionHiveId && decide ((m.id : Int) > effSince))
  jsSliceLast filtered limit

/-- The message-selection core of the gossip feed, with the effective hive id
and numeric cursor already resolved: filter to the hive and (inclusive!)
`createdAtMs >= sinceMs`; `src/server.ts` applies no limit here. -/
def gossipFeed (st : ServerState) (hiveId : String) (effSinceMs : Int) : List HiveMessage :=
  st.messages.filter (fun m => m.hiveId == hiveId && jsGeOpt m.createdAtMs effSinceMs)

/-- `GET /gossip/messages` from `src/server.ts`: resolve `hive_id` (defaults
to the server's hive) and `since_ms` (NaN falls back to 0), then filter. -/
def readSinceTime (cfg : Config) (st : ServerState)
    (hiveParam sinceParam : Option String) : List HiveMessage :=
  let hiveId := hiveParam.getD cfg.hiveId
  let sinceMs := jsNumber (sinceParam.getD "0")
  gossipFeed st hiveId (sinceMs.getD 0)

/-! ## Gossip ingestion (`pollPeers` and `POST /gossip/push`) -/

/-- An element of an incoming gossip batch, as parsed from JSON: every field
may be absent. -/
structure GossipMsg where
  uid : Option String := none
  ts : Option String := none
  createdAtMs : Option Int := none
  agentId : Option String := none
  hiveId : Option String := none
  content : Option String := none
  channel : Option String := none
deriving Repr, DecidableEq

/-- `createdAtMs || Date.now()`: NaN and `0` are falsy. -/
def jsOrNow (c : Option Int) (now : Int) : Int :=
  match c with
  | some v => if v = 0 then now else v
  | none => now

/-- The normalisation both gossip ingestion paths apply before
`storeMessage`: default `ts` from `createdAtMs` (or `now`), and replace a
non-finite `createdAtMs` by `Date.parse(ts)`. -/
def normalizeGossip (pr : Prims) (now : Int) (msg : GossipMsg) : MessageInput :=
  let ts := msg.ts.getD (pr.isoOf (jsOrNow msg.createdAtMs now))
  { uid := msg.uid.getD "", ts := ts,
    createdAtMs := match msg.createdAtMs with
      | some c => some c
      | none => pr.dateParse ts,
    agentId := msg.agentId, hiveId := msg.hiveId.getD "",
    content := msg.content, channel := msg.channel.getD "default",
    source := MsgSource.gossip }

/-- One iteration of the merge loop inside `pollPeers`: skip `null` records,
records for another hive, and records without a truthy `uid`; otherwise
normalise, attempt `storeMessage`, and raise `maxSeen` to the accepted
record's finite `createdAtMs`. -/
def mergeStep (cfgHive : String) (pr : Prims) (now : Int)
    (acc : ServerState × Int) : Option GossipMsg → ServerState × Int
  | none => acc
  | some msg =>
    if msg.hiveId ≠ some cfgHive ∨ ¬ truthy msg.uid then acc
    else
      let r := storeMessage acc.1 (normalizeGossip pr now msg)
      match r.1 with
      | some stored =>
        (r.2, match stored.createdAtMs with
          | some c => max acc.2 c
          | none => acc.2)
      | none => (r.2, acc.2)

/-- The whole merge loop of `pollPeers` over one peer's batch, threading the
state and `maxSeen` (initialised to the peer's cursor). -/
def mergeBatch (cfgHive : String) (pr : Prims) (now : Int) (st : ServerState)
    (sinceMs : Int) (incoming : List (Option GossipMsg)) : ServerState × Int :=
  incoming.foldl (mergeStep cfgHive pr now) (st, sinceMs)

/-- One `pollPeers` round for a single peer whose fetched batch is
`incoming`: read the cursor (default 0), merge, and write the cursor back
only when `maxSeen > sinceMs`. -/
def pollPeerBatch (cfgHive : String) (pr : Prims) (now : Int) (peer : String)
    (incoming : List (Option GossipMsg)) (st : ServerState) : ServerState :=
  let sinceMs := (alookup st.peerCursors peer).getD 0
  let r := mergeBatch cfgHive pr now st sinceMs incoming
  if r.2 > sinceMs then { r.1 with peerCursors := aset r.1.peerCursors peer r.2 }
  else r.1

/-- How a stored message appears to a peer after the JSON round trip of the
gossip feed: a NaN `createdAtMs` serialises as `null` and `Number(null) = 0`;
absent `agentId`/`content` stay absent. -/
def gossipView (m : HiveMessage) : GossipMsg :=
  { uid := some m.uid, ts := some m.ts,
    createdAtMs := some (m.createdAtMs.getD 0),
    agentId := m.agentId, hiveId := some m.hiveId,
    content := m.content, channel := some m.channel }

/-- One poll of `remote` by `local` (the body of `pollPeers` for one peer,
with the HTTP fetch replaced by the peer's actual feed; the integer cursor's
round trip through the `since_ms` query string is modelled as the
identity). -/
def pollFrom (cfgHive : String) (pr : Prims) (now : Int) (peer : String)
    (remote here : ServerState) : ServerState :=
  let sinceMs := (alookup here.peerCursors peer).getD 0
  pollPeerBatch cfgHive pr now peer
    ((gossipFeed remote cfgHive sinceMs).map (fun m => some (gossipView m))) here

/-- One iteration of the `POST /gossip/push` loop: count a record as skipped
when it is `null`, lacks a truthy `uid`/`agentId`/`hiveId`/`content`, names
another hive, or is a duplicate `uid`; otherwise store and count accepted. -/
def pushStep (cfgHive : String) (pr : Prims) (now : Int)
    (acc : Nat × Nat × ServerState) : Option GossipMsg → Nat × Nat × ServerState
  | none => (acc.1, acc.2.1 + 1, acc.2.2)
  | some msg =>
    if ¬(truthy msg.uid ∧ truthy msg.agentId ∧ truthy msg.hiveId ∧ truthy msg.content) then
      (acc.1, acc.2.1 + 1, acc.2.2)
    else if msg.hiveId.getD "" ≠ cfgHive then
      (acc.1, acc.2.1 + 1, acc.2.2)
    else
      let r := storeMessage acc.2.2 (normalizeGossip pr now msg)
      match r.1 with
      | some _ => (acc.1 + 1, acc.2.1, r.2)
      | none => (acc.1, acc.2.1 + 1, r.2)

/-- The `POST /gossip/push` handler body (after the gossip-token check):
fold over the batch and report `{accepted, skipped}` with HTTP 200. -/
def gossipPushHandler (cfg : Config) (pr : Prims) (st : ServerState) (now : Int)
    (incoming : List (Option GossipMsg)) : (Nat × Nat × ServerState) × HttpResp :=
  let r := incoming.foldl (pushStep cfg.hiveId pr now) (0, 0, st)
  (r, { status := 200 })

/-! ## Uid projections used by the convergence statements -/

def allUids (st : ServerState) : List String := st.messages.map (fun m => m.uid)

def hiveUids (h : String) (st : ServerState) : List String :=
  (st.messages.filter (fun m => m.hiveId == h)).map (fun m => m.uid)

/-- The `maxSeen` accumulator of `pollPeers` over a run of accepted
(stored) messages: fold `max` over the finite `createdAtMs` values. -/
def acceptedCursorMax (base : Int) (ms : List HiveMessage) : Int :=
  ms.foldl (fun acc m =>
    match m.createdAtMs with
    | some c => max acc c
    | none => acc) base

/-- The peer cursor value `pollPeers` reads: stored value or 0. -/
def peerCursorOf (st : ServerState) (peer : String) : Int :=
  (alookup st.peerCursors peer).getD 0

/-- A well-formed entry of a gossip batch for hive `h`: present, addressed to
`h`, with a non-empty `uid` and a finite non-negative `createdAtMs`.  Feeds
generated from well-formed stores produce only such entries. -/
def viableEntry (h : String) (e : Option GossipMsg) : Prop :=
  ∃ g, e = some g ∧ g.hiveId = some h ∧
    (∃ u, g.uid = some u ∧ u ≠ "") ∧ (∃ c, g.createdAtMs = some c ∧ 0 ≤ c)

/-- The batch entry `e` carries uid `u`. -/
def entryUid (e : Option GossipMsg) (u : String) : Prop :=
  ∃ g, e = some g ∧ g.uid = some u

/-- The uids carried by a gossip batch (of its present entries). -/
def entryUids (L : List (Option GossipMsg)) : List String :=
  L.filterMap (fun e => e.bind (fun g => g.uid))

/-- Hive-`h` messages of a store are well formed: non-empty uid, finite
non-negative timestamp (true of every state the server itself builds). -/
def wfHive (h : String) (st : ServerState) : Prop :=
  ∀ m ∈ st.messages, m.hiveId = h → m.uid ≠ "" ∧ ∃ c, m.createdAtMs = some c ∧ 0 ≤ c

/-! ## Concrete fixtures used by witnesses and counterexamples -/

/-- Concrete executable primitives: "SIG" is the one base64-decodable
signature, "PK" the one base58-decodable public key, the Ed25519 core accepts
everything, dates are plain decimal millisecond strings. -/
def cPrims : Prims :=
  { base64Decode := fun s => if s = "SIG" then some (List.replicate 64 0) else none,
    bs58Decode := fun s => if s = "PK" then some (List.replicate 32 0) else none,
    utf8Encode := fun _ => [],
    naclVerify := fun _ _ _ => true,
    dateParse := fun s => if s = "E" then some 120000 else jsNumber s,
    isoOf := fun _ => "E" }

def cCfg : Config := { hiveId := "h", deviceProofRequired := false, deviceProofTtlMs := 300000 }

def emptyState : ServerState :=
  { challenges := [], sessions := [], messages := [], nextMessageId := 1, peerCursors := [] }

def c2Input : MessageInput :=
  { uid := "u", ts := "1970-01-01T00:00:00.000Z", createdAtMs := some 0,
    agentId := some "a", hiveId := "h", content := some "x",
    channel := "default", source := MsgSource.local }

def c2Msg : HiveMessage :=
  { id := 1, uid := "u", ts := "1970-01-01T00:00:00.000Z", createdAtMs := some 0,
    agentId := some "a", hiveId := "h", content := some "x",
    channel := "default", source := MsgSource.local }

def c2State : ServerState :=
  { challenges := [], sessions := [], messages := [c2Msg], nextMessageId := 2, peerCursors := [] }

def c1wBody : JoinBody :=
  { agent_id := some "a", pubkey := some "PK", nonce := some "N1",
    signature := some "SIG", timestamp := some "100", hive_id := some "hh" }

def c4Challenge : Challenge :=
  { agentId := "a", pubkey := "PK", nonce := "N", hiveId := "h", expiresAt := "120000" }

def c4State : ServerState :=
  { challenges := [("N", c4Challenge)], sessions := [], messages := [],
    nextMessageId := 1, peerCursors := [] }

def c4Body : JoinBody :=
  { agent_id := some "a", pubkey := some "PK", nonce := some "N",
    signature := some "SIG", timestamp := some "not-a-date" }

def c4BodyMissing : JoinBody :=
  { agent_id := some "a", pubkey := some "PK", nonce := some "X",
    signature := some "SIG", timestamp := some "100" }

def c4BodyLate : JoinBody :=
  { agent_id := some "a", pubkey := some "PK", nonce := some "N",
    signature := some "SIG", timestamp := some "200000" }

def c4BodySig : JoinBody :=
  { agent_id := some "a", pubkey := some "PK", nonce := some "N",
    signature := some "BAD", timestamp := some "100" }

def c5Msg (i : Nat) : HiveMessage :=
  { id := i + 1, uid := "u" ++ toString i, ts := "", createdAtMs := some 0,
    agentId := some "a", hiveId := "h", content := some "x",
    channel := "default", source := MsgSource.local }

def c5State : ServerState :=
  { challenges := [], sessions := [], messages := (List.range 201).map c5Msg,
    nextMessageId := 202, peerCursors := [] }

def c6Msg (i : Nat) : HiveMessage :=
  { id := i + 1, uid := "w" ++ toString i, ts := "5", createdAtMs := some 5,
    agentId := some "a", hiveId := "h", content := some "x",
    channel := "default", source := MsgSource.gossip }

def c6State : ServerState :=
  { challenges := [], sessions := [], messages := (List.range 501).map c6Msg,
    nextMessageId := 502, peerCursors := [] }

def c6wMsg : HiveMessage :=
  { id := 1, uid := "w", ts := "7", createdAtMs := some 7, agentId := some "a",
    hiveId := "h", content := some "x", channel := "default", source := MsgSource.gossip }

def c6wState : ServerState :=
  { challenges := [], sessions := [], messages := [c6wMsg], nextMessageId := 2, peerCursors := [] }

def c9Good : GossipMsg :=
  { uid := some "g1", ts := some "5", createdAtMs := some 5, agentId := some "a",
    hiveId := some "h", content := some "hello", channel := some "default" }

def c9Bad : GossipMsg :=
  { uid := some "g2", ts := some "5", createdAtMs := some 5, agentId := some "a",
    hiveId := some "h", content := none, channel := some "default" }

/-- A gossip record carrying only `uid`, `hiveId`, a timestamp and a channel:
`agentId` and `content` are absent. -/
def bareGossipMsg (h u : String) (c : Option Int) (tsf ch : Option String) : GossipMsg :=
  { uid := some u, ts := tsf, createdAtMs := c, agentId := none,
    hiveId := some h, content := none, channel := ch }

def c3MsgA : HiveMessage :=
  { id := 1, uid := "ua", ts := "1", createdAtMs := some 1, agentId := some "a1",
    hiveId := "h", content := some "x", channel := "default", source := MsgSource.local }

def c3MsgB : HiveMessage :=
  { id := 1, uid := "ub", ts := "2", createdAtMs := some 2, agentId := some "b1",
    hiveId := "h", content := some "y", channel := "default", source := MsgSource.local }

def c3StateA : ServerState :=
  { challenges := [], sessions := [], messages := [c3MsgA], nextMessageId := 2, peerCursors := [] }

def c3StateB : ServerState :=
  { challenges := [], sessions := [], messages := [c3MsgB], nextMessageId := 2, peerCursors := [] }

/-! ## Basic lemmas about the association-list maps -/

theorem alookup_aset_self {α : Type} (l : List (String × α)) (k : String) (v : α) :
    alookup (aset l k v) k = some v := by
  simp [aset, alookup]

theorem alookup_aerase_self {α : Type} (l : List (String × α)) (k : String) :
    alookup (aerase l k) k = none := by
  induction l with
  | nil => rfl
  | cons p t ih =>
    by_cases h : p.1 = k
    · simpa [aerase, h] using ih
    · simpa [aerase, alookup, h] using ih

/-! ## C2: append idempotence on uid -/

theorem any_uid_iff (st : ServerState) (u : String) :
    (st.messages.any (fun m => m.uid == u) = true) ↔ u ∈ allUids st := by
  simp [allUids, List.any_eq_true, List.mem_map]

/-- `storeMessage` on a duplicate uid: no record, state untouched. -/
theorem storeMessage_dup (st : ServerState) (inp : MessageInput)
    (h : st.messages.any (fun m => m.uid == inp.uid) = true) :
    storeMessage st inp = (none, st) := by
  unfold storeMessage
  rw [if_pos h]

/-- `storeMessage` on a fresh uid: returns and appends the new record. -/
theorem storeMessage_fresh (st : ServerState) (inp : MessageInput)
    (h : st.messages.any (fun m => m.uid == inp.uid) = false) :
    storeMessage st inp =
      (some { id := st.nextMessageId, uid := inp.uid, ts := inp.ts,
              createdAtMs := inp.createdAtMs, agentId := inp.agentId,
              hiveId := inp.hiveId, content := inp.content,
              channel := inp.channel, source := inp.source },
       { st with
           messages := st.messages ++
             [{ id := st.nextMessageId, uid := inp.uid, ts := inp.ts,
                createdAtMs := inp.createdAtMs, agentId := inp.agentId,
                hiveId := inp.hiveId, content := inp.content,
                channel := inp.channel, source := inp.source }],
           nextMessageId := st.nextMessageId + 1 }) := by
  unfold storeMessage
  rw [if_neg (by simp [h])]

/-- C2 counterexample: at a state whose store already contains the
candidate's uid, the first `storeMessage` call returns `none` (not the stored
message) and the size does not change across the two calls — refuting the
claim's quantification over every hive state. -/
theorem c2_counterexample :
    (storeMessage c2State c2Input).1 = none ∧
    (storeMessage (storeMessage c2State c2Input).2 c2Input).2.messages.length
      = c2State.messages.length := by
  decide

/-- C2 (amended with the fresh-uid precondition): at any state whose store
does not yet contain the candidate's uid, `storeMessage` returns the stored
record the first time; a second call with the same uid returns `none`,
leaves the state entirely unchanged, and the store grew by exactly one. -/
theorem c2_append_idempotent_on_fresh_uid
    (st : ServerState) (inp inp2 : MessageInput)
    (huid : inp2.uid = inp.uid)
    (hfresh : ∀ m ∈ st.messages, m.uid ≠ inp.uid) :
    (storeMessage st inp).1 = some
      { id := st.nextMessageId, uid := inp.uid, ts := inp.ts,
        createdAtMs := inp.createdAtMs, agentId := inp.agentId,
        hiveId := inp.hiveId, content := inp.content,
        channel := inp.channel, source := inp.source } ∧
    (storeMessage (storeMessage st inp).2 inp2).1 = none ∧
    (storeMessage (storeMessage st inp).2 inp2).2 = (storeMessage st inp).2 ∧
    (storeMessage st inp).2.messages.length = st.messages.length + 1 := by
  have h1 : st.messages.any (fun m => m.uid == inp.uid) = false := by
    rw [Bool.eq_false_iff]
    intro h
    rcases (List.any_eq_true).mp h with ⟨m, hm, he⟩
    exact hfresh m hm (by simpa using he)
  have hfirst := storeMessage_fresh st inp h1
  have h2 : ((storeMessage st inp).2.messages.any (fun m => m.uid == inp2.uid)) = true := by
    rw [hfirst]
    simp [List.any_append, huid]
  have hsecond := storeMessage_dup (storeMessage st inp).2 inp2 h2
  refine ⟨by rw [hfirst], by rw [hsecond], by rw [hsecond], by rw [hfirst]; simp⟩

/-- C2 witness: the amended theorem applied at the empty store. -/
theorem c2_witness :
    (storeMessage emptyState c2Input).1 = some
      { id := emptyState.nextMessageId, uid := c2Input.uid, ts := c2Input.ts,
        createdAtMs := c2Input.createdAtMs, agentId := c2Input.agentId,
        hiveId := c2Input.hiveId, content := c2Input.content,
        channel := c2Input.channel, source := c2Input.source } ∧
    (storeMessage (storeMessage emptyState c2Input).2 c2Input).1 = none ∧
    (storeMessage (storeMessage emptyState c2Input).2 c2Input).2
      = (storeMessage emptyState c2Input).2 ∧
    (storeMessage emptyState c2Input).2.messages.length
      = emptyState.messages.length + 1 :=
  c2_append_idempotent_on_fresh_uid emptyState c2Input c2Input rfl (by simp [emptyState])

/-! ## C8: the signature verifier is total and fails closed -/

/-- C8: for every input triple, a base64/base58 decoding failure, or a
decoded signature/public key of the wrong Ed25519 length, makes
`verifyMessage` (and `verifyEd25519Base64`) return `false`; in this
embedding, library decoding failures that would raise are `none` results, so
the verifier is a total boolean function of its inputs. -/
theorem c8_verifier_fails_closed (pr : Prims) (m s p : String) :
    ((pr.base64Decode s = none ∨ pr.bs58Decode p = none ∨
      (∀ b, pr.bs58Decode p = some b → b.length ≠ naclPublicKeyLength) ∨
      (∀ b, pr.base64Decode s = some b → b.length ≠ naclSignatureLength)) →
      verifyMessage pr m s p = false) ∧
    ((pr.base64Decode s = none ∨ pr.base64Decode p = none ∨
      (∀ b, pr.base64Decode p = some b → b.length ≠ naclPublicKeyLength) ∨
      (∀ b, pr.base64Decode s = some b → b.length ≠ naclSignatureLength)) →
      verifyEd25519Base64 pr m s p = false) := by
  constructor
  · intro h
    cases hs : pr.base64Decode s with
    | none => simp [verifyMessage, hs]
    | some sig =>
      cases hp : pr.bs58Decode p with
      | none => simp [verifyMessage, hs, hp]
      | some pub =>
        rcases h with h | h | h | h
        · exact absurd hs (by simp [h])
        · exact absurd hp (by simp [h])
        · simp [verifyMessage, hs, hp, h pub hp]
        · simp [verifyMessage, hs, hp, h sig hs]
  · intro h
    cases hs : pr.base64Decode s with
    | none => simp [verifyEd25519Base64, hs]
    | some sig =>
      cases hp : pr.base64Decode p with
      | none => simp [verifyEd25519Base64, hs, hp]
      | some pub =>
        rcases h with h | h | h | h
        · exact absurd hs (by simp [h])
        · exact absurd hp (by simp [h])
        · simp [verifyEd25519Base64, hs, hp, h pub hp]
        · simp [verifyEd25519Base64, hs, hp, h sig hs]

/-- C8 witness: with the concrete primitives, undecodable inputs make both
verifiers return `false`. -/
theorem c8_witness :
    verifyMessage cPrims "m" "s" "p" = false ∧
    verifyEd25519Base64 cPrims "m" "s" "p" = false :=
  ⟨(c8_verifier_fails_closed cPrims "m" "s" "p").1 (Or.inl (by decide)),
   (c8_verifier_fails_closed cPrims "m" "s" "p").2 (Or.inl (by decide))⟩

/-! ## C9: gossip push accounting -/

theorem pushStep_count (cfgHive : String) (pr : Prims) (now : Int)
    (acc : Nat × Nat × ServerState) (e : Option GossipMsg) :
    (pushStep cfgHive pr now acc e).1 + (pushStep cfgHive pr now acc e).2.1
      = acc.1 + acc.2.1 + 1 := by
  cases e with
  | none => simp [pushStep]; omega
  | some msg =>
    by_cases h1 : truthy msg.uid ∧ truthy msg.agentId ∧ truthy msg.hiveId ∧ truthy msg.content
    · by_cases h2 : msg.hiveId.getD "" = cfgHive
      · cases h3 : (storeMessage acc.2.2 (normalizeGossip pr now msg)).1 with
        | none => simp [pushStep, h1, h2, h3]; omega
        | some m => simp [pushStep, h1, h2, h3]; omega
      · simp [pushStep, h1, h2]; omega
    · simp [pushStep, h1]; omega

theorem pushFold_count (cfgHive : String) (pr : Prims) (now : Int) :
    ∀ (incoming : List (Option GossipMsg)) (acc : Nat × Nat × ServerState),
      (incoming.foldl (pushStep cfgHive pr now) acc).1 +
        (incoming.foldl (pushStep cfgHive pr now) acc).2.1
        = acc.1 + acc.2.1 + incoming.length := by
  intro incoming
  induction incoming with
  | nil => intro acc; simp
  | cons e t ih =>
    intro acc
    have hstep := pushStep_count cfgHive pr now acc e
    calc (List.foldl (pushStep cfgHive pr now) (pushStep cfgHive pr now acc e) t).1 +
          (List.foldl (pushStep cfgHive pr now) (pushStep cfgHive pr now acc e) t).2.1
        = (pushStep cfgHive pr now acc e).1 + (pushStep cfgHive pr now acc e).2.1 + t.length :=
          ih (pushStep cfgHive pr now acc e)
      _ = acc.1 + acc.2.1 + (e :: t).length := by rw [hstep]; simp; omega

/-- C9: every `POST /gossip/push` batch is answered with HTTP 200 and counts
satisfying `accepted + skipped = number of incoming records`; and the
concrete two-record scenario — one well-formed record plus one record missing
the required `content` field — yields `accepted = 1, skipped = 1`. -/
theorem c9_push_counts (cfg : Config) (pr : Prims) (st : ServerState) (now : Int)
    (incoming : List (Option GossipMsg)) :
    ((gossipPushHandler cfg pr st now incoming).1.1 +
       (gossipPushHandler cfg pr st now incoming).1.2.1 = incoming.length) ∧
    (gossipPushHandler cfg pr st now incoming).2.status = 200 ∧
    (gossipPushHandler cCfg cPrims emptyState 0 [some c9Good, some c9Bad]).1.1 = 1 ∧
    (gossipPushHandler cCfg cPrims emptyState 0 [some c9Good, some c9Bad]).1.2.1 = 1 := by
  refine ⟨?_, rfl, by decide, by decide⟩
  have h := pushFold_count cfg.hiveId pr now incoming (0, 0, st)
  simpa [gossipPushHandler] using h

/-! ## C10: the pull-merge path accepts records the push path rejects -/

/-- C10: a non-null incoming record with a non-empty `uid` and the local
hive's `hiveId`, but with `agentId` and `content` absent, is stored by the
gossip pull-merge loop (when its uid is fresh), while the very same record
is counted as skipped and not stored by `POST /gossip/push`. -/
theorem c10_pull_accepts_more_than_push (cfg : Config) (pr : Prims) (now : Int)
    (st : ServerState) (mx : Int) (u : String) (c : Option Int) (tsf ch : Option String)
    (hu : u ≠ "")
    (hfresh : ∀ m ∈ st.messages, m.uid ≠ u) :
    ((mergeStep cfg.hiveId pr now (st, mx)
        (some (bareGossipMsg cfg.hiveId u c tsf ch))).1.messages.length
      = st.messages.length + 1) ∧
    (u ∈ allUids (mergeStep cfg.hiveId pr now (st, mx)
        (some (bareGossipMsg cfg.hiveId u c tsf ch))).1) ∧
    (∀ m ∈ (mergeStep cfg.hiveId pr now (st, mx)
        (some (bareGossipMsg cfg.hiveId u c tsf ch))).1.messages,
      m ∈ st.messages ∨ (m.uid = u ∧ m.agentId = none ∧ m.content = none)) ∧
    (gossipPushHandler cfg pr st now [some (bareGossipMsg cfg.hiveId u c tsf ch)]).1
      = (0, 1, st) := by
  have hun : (normalizeGossip pr now (bareGossipMsg cfg.hiveId u c tsf ch)).uid = u := by
    simp [normalizeGossip, bareGossipMsg]
  have h1 : st.messages.any
      (fun m => m.uid == (normalizeGossip pr now (bareGossipMsg cfg.hiveId u c tsf ch)).uid)
      = false := by
    rw [Bool.eq_false_iff]
    intro h
    rcases (List.any_eq_true).mp h with ⟨m, hm, he⟩
    exact hfresh m hm (by simpa [hun] using he)
  have hstore := storeMessage_fresh st (normalizeGossip pr now (bareGossipMsg cfg.hiveId u c tsf ch)) h1
  simp [normalizeGossip, bareGossipMsg] at hstore
  have hmerge : (mergeStep cfg.hiveId pr now (st, mx)
      (some (bareGossipMsg cfg.hiveId u c tsf ch))).1
      = { st with
            messages := st.messages ++
              [{ id := st.nextMessageId, uid := u,
                 ts := (normalizeGossip pr now (bareGossipMsg cfg.hiveId u c tsf ch)).ts,
                 createdAtMs := (normalizeGossip pr now (bareGossipMsg cfg.hiveId u c tsf ch)).createdAtMs,
                 agentId := none, hiveId := cfg.hiveId, content := none,
                 channel := ch.getD "default", source := MsgSource.gossip }],
            nextMessageId := st.nextMessageId + 1 } := by
    simp only [mergeStep]
    rw [if_neg (by simp [bareGossipMsg, truthy, hu])]
    simp [hstore, normalizeGossip, bareGossipMsg]
  refine ⟨?_, ?_, ?_, ?_⟩
  · rw [hmerge]; simp
  · rw [hmerge]; simp [allUids]
  · rw [hmerge]
    intro m hm
    rcases List.mem_append.mp hm with h | h
    · exact Or.inl h
    · simp at h
      subst h
      exact Or.inr ⟨rfl, rfl, rfl⟩
  · unfold gossipPushHandler
    simp [pushStep, bareGossipMsg, truthy]

/-- C10 witness: concrete instantiation at the empty store. -/
theorem c10_witness :
    ((mergeStep cCfg.hiveId cPrims 0 (emptyState, 0)
        (some (bareGossipMsg cCfg.hiveId "uu" (some 3) (some "3") none))).1.messages.length
      = emptyState.messages.length + 1) ∧
    ("uu" ∈ allUids (mergeStep cCfg.hiveId cPrims 0 (emptyState, 0)
        (some (bareGossipMsg cCfg.hiveId "uu" (some 3) (some "3") none))).1) ∧
    (gossipPushHandler cCfg cPrims emptyState 0
        [some (bareGossipMsg cCfg.hiveId "uu" (some 3) (some "3") none)]).1
      = (0, 1, emptyState) := by
  have h := c10_pull_accepts_more_than_push cCfg cPrims 0 emptyState 0 "uu" (some 3)
    (some "3") none (by decide) (by simp [emptyState])
  exact ⟨h.1, h.2.1, h.2.2.2⟩

/-! ## C5: the 200-record ceiling of GET /messages -/

/-- C5 (code bug): with 201 stored messages in the session's hive,
`GET /messages?since=0&limit=abc` returns all 201 records.  `Number("abc")`
is NaN, `Math.min(200, Math.max(1, NaN))` is NaN, and `slice(-NaN)` is
`slice(0)`, so the hard ceiling of 200 is bypassed by a non-numeric `limit`
parameter — contradicting the specified cap that is "independent of the
caller-requested value". -/
theorem c5_nan_limit_bypasses_cap :
    (readSinceMessages c5State "h" (some "0") (some "abc")).length = 201 ∧
    200 < (readSinceMessages c5State "h" (some "0") (some "abc")).length := by
  have hsince : jsNumber "0" = some 0 := by decide
  have hlimit : jsNumber "abc" = none := by decide
  have hfilter : c5State.messages.filter
      (fun m => m.hiveId == "h" && decide ((m.id : Int) > 0)) = c5State.messages := by
    rw [List.filter_eq_self]
    intro m hm
    rcases List.mem_map.mp hm with ⟨i, _, rfl⟩
    simp [c5Msg]
  have hlen : (readSinceMessages c5State "h" (some "0") (some "abc")).length = 201 := by
    simp only [readSinceMessages, Option.getD_some, hsince, hlimit, jsMax, jsMin, jsSliceLast]
    rw [hfilter]
    simp [c5State]
  exact ⟨hlen, by omega⟩

/-! ## C6: the gossip feed GET /gossip/messages -/

set_option maxRecDepth 4000 in
/-- C6 counterexample: with every stored record carrying
`createdAtMs = 5`, the request `since_ms=5` returns all 501 of them — the
comparison is inclusive (`>=`), refuting "strictly greater", and no limit
caps the result, refuting "capped at the limit". -/
theorem c6_counterexample :
    readSinceTime cCfg c6State (some "h") (some "5") = c6State.messages ∧
    (c6Msg 0).createdAtMs = some 5 ∧
    500 < (readSinceTime cCfg c6State (some "h") (some "5")).length := by
  have hsince : jsNumber "5" = some 5 := by decide
  have hfeed : readSinceTime cCfg c6State (some "h") (some "5") = c6State.messages := by
    simp only [readSinceTime, gossipFeed, Option.getD_some, hsince]
    rw [List.filter_eq_self]
    intro m hm
    rcases List.mem_map.mp hm with ⟨i, _, rfl⟩
    simp [c6Msg, jsGeOpt]
  refine ⟨hfeed, rfl, ?_⟩
  rw [hfeed]
  simp [c6State]

/-- C6 (amended): `readSinceTime` returns only records of the requested hive
whose `createdAtMs` is finite and greater than or equal to the effective
`since_ms` (inclusive comparison); the result is a sublist of the store
(hence oldest-first whenever the store is ordered, which the third conjunct
states for the per-server id order); the single-process server applies no
cap beyond the store's own size. -/
theorem c6_read_since_time_contract (cfg : Config) (st : ServerState)
    (hiveParam sinceParam : Option String) :
    (∀ m ∈ readSinceTime cfg st hiveParam sinceParam,
      m.hiveId = hiveParam.getD cfg.hiveId ∧
      ∃ cMs, m.createdAtMs = some cMs ∧ (jsNumber (sinceParam.getD "0")).getD 0 ≤ cMs) ∧
    (readSinceTime cfg st hiveParam sinceParam).Sublist st.messages ∧
    (st.messages.Pairwise (fun x y => x.id < y.id) →
      (readSinceTime cfg st hiveParam sinceParam).Pairwise (fun x y => x.id < y.id)) := by
  refine ⟨?_, ?_, ?_⟩
  · intro m hm
    simp only [readSinceTime, gossipFeed] at hm
    rcases List.mem_filter.mp hm with ⟨_, hpred⟩
    simp only [Bool.and_eq_true] at hpred
    obtain ⟨hhive, hge⟩ := hpred
    refine ⟨by simpa using hhive, ?_⟩
    cases hc : m.createdAtMs with
    | none => rw [hc] at hge; exact absurd hge (by simp [jsGeOpt])
    | some cMs =>
      rw [hc] at hge
      exact ⟨cMs, rfl, by simpa [jsGeOpt] using hge⟩
  · exact List.filter_sublist st.messages
  · intro hpw
    exact hpw.sublist (List.filter_sublist st.messages)

/-- C6 witness: the contract applied at a one-record store. -/
theorem c6_witness :
    (c6wMsg.hiveId = (some "h").getD cCfg.hiveId ∧
      ∃ cMs, c6wMsg.createdAtMs = some cMs ∧ (jsNumber ((some "3").getD "0")).getD 0 ≤ cMs) ∧
    (readSinceTime cCfg c6wState (some "h") (some "3")).Sublist c6wState.messages ∧
    (readSinceTime cCfg c6wState (some "h") (some "3")).Pairwise (fun x y => x.id < y.id) :=
  ⟨(c6_read_since_time_contract cCfg c6wState (some "h") (some "3")).1 c6wMsg (by decide),
   (c6_read_since_time_contract cCfg c6wState (some "h") (some "3")).2.1,
   (c6_read_since_time_contract cCfg c6wState (some "h") (some "3")).2.2 (by decide)⟩

/-! ## C7: peer cursor advancement -/

theorem le_acceptedCursorMax : ∀ (l : List HiveMessage) (base : Int),
    base ≤ acceptedCursorMax base l := by
  intro l
  induction l with
  | nil => intro base; simp [acceptedCursorMax]
  | cons m t ih =>
    intro base
    have hstep : base ≤ (match m.createdAtMs with
        | some c => max base c
        | none => base) := by
      cases m.createdAtMs with
      | none => simp
      | some c => simp [le_max_left]
    calc base ≤ (match m.createdAtMs with
          | some c => max base c
          | none => base) := hstep
      _ ≤ acceptedCursorMax (match m.createdAtMs with
          | some c => max base c
          | none => base) t := ih _
      _ = acceptedCursorMax base (m :: t) := rfl

/-- The merge loop of `pollPeers` appends some batch `d` of accepted records
to the store, touches nothing else, and its `maxSeen` result is exactly the
fold of `max` over the finite `createdAtMs` of those accepted records. -/
theorem mergeBatch_spec (cfgHive : String) (pr : Prims) (now : Int) :
    ∀ (L : List (Option GossipMsg)) (st : ServerState) (mx : Int),
    ∃ d : List HiveMessage,
      (mergeBatch cfgHive pr now st mx L).1.messages = st.messages ++ d ∧
      (mergeBatch cfgHive pr now st mx L).2 = acceptedCursorMax mx d ∧
      (mergeBatch cfgHive pr now st mx L).1.challenges = st.challenges ∧
      (mergeBatch cfgHive pr now st mx L).1.sessions = st.sessions ∧
      (mergeBatch cfgHive pr now st mx L).1.peerCursors = st.peerCursors := by
  intro L
  induction L with
  | nil =>
    intro st mx
    exact ⟨[], by simp [mergeBatch], by simp [mergeBatch, acceptedCursorMax], rfl, rfl, rfl⟩
  | cons e t ih =>
    intro st mx
    cases e with
    | none =>
      have hstep : mergeStep cfgHive pr now (st, mx) none = (st, mx) := rfl
      have hfold : mergeBatch cfgHive pr now st mx (none :: t)
          = mergeBatch cfgHive pr now st mx t := by
        simp only [mergeBatch, List.foldl_cons, hstep]
      rw [hfold]
      exact ih st mx
    | some msg =>
      by_cases hskip : msg.hiveId ≠ some cfgHive ∨ ¬ truthy msg.uid = true
      · have hstep : mergeStep cfgHive pr now (st, mx) (some msg) = (st, mx) := by
          simp only [mergeStep]
          rw [if_pos hskip]
        have hfold : mergeBatch cfgHive pr now st mx (some msg :: t)
            = mergeBatch cfgHive pr now st mx t := by
          simp only [mergeBatch, List.foldl_cons, hstep]
        rw [hfold]
        exact ih st mx
      · by_cases hdup : st.messages.any
            (fun m => m.uid == (normalizeGossip pr now msg).uid) = true
        · have hstep : mergeStep cfgHive pr now (st, mx) (some msg) = (st, mx) := by
            simp only [mergeStep]
            rw [if_neg hskip]
            simp [storeMessage_dup st (normalizeGossip pr now msg) hdup]
          have hfold : mergeBatch cfgHive pr now st mx (some msg :: t)
              = mergeBatch cfgHive pr now st mx t := by
            simp only [mergeBatch, List.foldl_cons, hstep]
          rw [hfold]
          exact ih st mx
        · have hfr : st.messages.any
              (fun m => m.uid == (normalizeGossip pr now msg).uid) = false :=
            Bool.eq_false_iff.mpr hdup
          have hstore := storeMessage_fresh st (normalizeGossip pr now msg) hfr
          have hstep : mergeStep cfgHive pr now (st, mx) (some msg) =
              ({ st with
                   messages := st.messages ++
                     [{ id := st.nextMessageId, uid := (normalizeGossip pr now msg).uid,
                        ts := (normalizeGossip pr now msg).ts,
                        createdAtMs := (normalizeGossip pr now msg).createdAtMs,
                        agentId := (normalizeGossip pr now msg).agentId,
                        hiveId := (normalizeGossip pr now msg).hiveId,
                        content := (normalizeGossip pr now msg).content,
                        channel := (normalizeGossip pr now msg).channel,
                        source := (normalizeGossip pr now msg).source }],
                   nextMessageId := st.nextMessageId + 1 },
               match (normalizeGossip pr now msg).createdAtMs with
               | some c => max mx c
               | none => mx) := by
            simp only [mergeStep]
            rw [if_neg hskip]
            simp only [hstore]
          have hfold : mergeBatch cfgHive pr now st mx (some msg :: t)
              = mergeBatch cfgHive pr now
                  { st with
                      messages := st.messages ++
                        [{ id := st.nextMessageId, uid := (normalizeGossip pr now msg).uid,
                           ts := (normalizeGossip pr now msg).ts,
                           createdAtMs := (normalizeGossip pr now msg).createdAtMs,
                           agentId := (normalizeGossip pr now msg).agentId,
                           hiveId := (normalizeGossip pr now msg).hiveId,
                           content := (normalizeGossip pr now msg).content,
                           channel := (normalizeGossip pr now msg).channel,
                           source := (normalizeGossip pr now msg).source }],
                      nextMessageId := st.nextMessageId + 1 }
                  (match (normalizeGossip pr now msg).createdAtMs with
                   | some c => max mx c
                   | none => mx) t := by
            simp only [mergeBatch, List.foldl_cons, hstep]
          rw [hfold]
          rcases ih _ (match (normalizeGossip pr now msg).createdAtMs with
            | some c => max mx c
            | none => mx) with ⟨d, hm, hc, hch, hs, hp⟩
          refine ⟨{ id := st.nextMessageId, uid := (normalizeGossip pr now msg).uid,
                    ts := (normalizeGossip pr now msg).ts,
                    createdAtMs := (normalizeGossip pr now msg).createdAtMs,
                    agentId := (normalizeGossip pr now msg).agentId,
                    hiveId := (normalizeGossip pr now msg).hiveId,
                    content := (normalizeGossip pr now msg).content,
                    channel := (normalizeGossip pr now msg).channel,
                    source := (normalizeGossip pr now msg).source } :: d, ?_, ?_, ?_, ?_, ?_⟩
          · rw [hm]; simp
          · rw [hc]; rfl
          · rw [hch]
          · rw [hs]
          · rw [hp]

/-- C7: for every poll batch, the peer's cursor after the cycle equals the
fold of `max` over the finite `createdAtMs` values of exactly the records
accepted (appended) in that batch, starting from the old cursor — so it is
non-decreasing, independent of merely-received records, and the stored entry
is rewritten only with a strictly larger value. -/
theorem c7_cursor_monotone (cfgHive : String) (pr : Prims) (now : Int) (peer : String)
    (incoming : List (Option GossipMsg)) (st : ServerState) :
    peerCursorOf (pollPeerBatch cfgHive pr now peer incoming st) peer
      = acceptedCursorMax (peerCursorOf st peer)
          ((pollPeerBatch cfgHive pr now peer incoming st).messages.drop st.messages.length) ∧
    (pollPeerBatch cfgHive pr now peer incoming st).messages.take st.messages.length
      = st.messages ∧
    peerCursorOf st peer ≤ peerCursorOf (pollPeerBatch cfgHive pr now peer incoming st) peer ∧
    ((pollPeerBatch cfgHive pr now peer incoming st).peerCursors = st.peerCursors ∨
      ((pollPeerBatch cfgHive pr now peer incoming st).peerCursors
          = aset st.peerCursors peer
              (peerCursorOf (pollPeerBatch cfgHive pr now peer incoming st) peer) ∧
        peerCursorOf st peer
          < peerCursorOf (pollPeerBatch cfgHive pr now peer incoming st) peer)) := by
  rcases mergeBatch_spec cfgHive pr now incoming st (peerCursorOf st peer)
    with ⟨d, hm, hc, hch, hs, hp⟩
  have hle : peerCursorOf st peer
      ≤ (mergeBatch cfgHive pr now st (peerCursorOf st peer) incoming).2 := by
    rw [hc]; exact le_acceptedCursorMax d (peerCursorOf st peer)
  by_cases hgt : (mergeBatch cfgHive pr now st (peerCursorOf st peer) incoming).2
      > peerCursorOf st peer
  · have hpoll : pollPeerBatch cfgHive pr now peer incoming st =
        { (mergeBatch cfgHive pr now st (peerCursorOf st peer) incoming).1 with
            peerCursors := aset
              (mergeBatch cfgHive pr now st (peerCursorOf st peer) incoming).1.peerCursors
              peer (mergeBatch cfgHive pr now st (peerCursorOf st peer) incoming).2 } := by
      simp only [pollPeerBatch, peerCursorOf] at hgt ⊢
      rw [if_pos hgt]
    have hcur : peerCursorOf (pollPeerBatch cfgHive pr now peer incoming st) peer
        = (mergeBatch cfgHive pr now st (peerCursorOf st peer) incoming).2 := by
      rw [hpoll]
      simp [peerCursorOf, alookup_aset_self]
    refine ⟨?_, ?_, ?_, Or.inr ⟨?_, ?_⟩⟩
    · rw [hcur, hpoll]
      simp only [hm, List.drop_left]
      exact hc
    · rw [hpoll]
      simp only [hm, List.take_left]
    · rw [hcur]; exact hle
    · rw [hcur, hpoll]
      simp [hp]
    · rw [hcur]; exact hgt
  · have heq : (mergeBatch cfgHive pr now st (peerCursorOf st peer) incoming).2
        = peerCursorOf st peer := le_antisymm (not_lt.mp hgt) hle
    have hpoll : pollPeerBatch cfgHive pr now peer incoming st =
        (mergeBatch cfgHive pr now st (peerCursorOf st peer) incoming).1 := by
      simp only [pollPeerBatch, peerCursorOf] at hgt ⊢
      rw [if_neg hgt]
    have hcur : peerCursorOf (pollPeerBatch cfgHive pr now peer incoming st) peer
        = peerCursorOf st peer := by
      rw [hpoll]
      have hp2 := hp
      simp only [peerCursorOf] at hp2 ⊢
      rw [hp2]
    refine ⟨?_, ?_, ?_, Or.inl ?_⟩
    · rw [hcur, hpoll]
      simp only [hm, List.drop_left]
      rw [← hc]
      exact heq.symm
    · rw [hpoll]
      simp only [hm, List.take_left]
    · rw [hcur]
    · rw [hpoll, hp]

/-! ## C4: behaviour of /join on each failed precondition -/

/-- C4 (amended): part (A) — every failed `/join` precondition leaves
sessions, messages and peer cursors untouched; every HTTP 401 rejection
leaves the stored Challenge untouched except the explicit challenge-expiry
check, which deletes exactly the challenge under the supplied nonce; every
HTTP 400 rejection leaves the whole state unchanged.  Part (B) — each
precondition, when it is the first one to fail, produces exactly the 401
response the claim describes (nonce lookup, binding fields, challenge
expiry — which erases the challenge —, clock skew, device proof, signature),
while an unparseable timestamp produces exactly the HTTP 400 response (a
`ValidationError`, not 401 as the claim states). -/
theorem c4_join_failures (cfg : Config) (pr : Prims) (st : ServerState) (now : Int)
    (tok : String) (body : JoinBody) :
    ((joinHandler cfg pr st now tok body).1.status ≠ 200 →
      (joinHandler cfg pr st now tok body).2.sessions = st.sessions ∧
      (joinHandler cfg pr st now tok body).2.messages = st.messages ∧
      (joinHandler cfg pr st now tok body).2.peerCursors = st.peerCursors) ∧
    ((joinHandler cfg pr st now tok body).1.status = 401 →
      ((joinHandler cfg pr st now tok body).2.challenges = st.challenges ∧
        (joinHandler cfg pr st now tok body).1.error ≠ some "challenge expired") ∨
      ((joinHandler cfg pr st now tok body).1.error = some "challenge expired" ∧
        (joinHandler cfg pr st now tok body).2.challenges
          = aerase st.challenges (body.nonce.getD ""))) ∧
    ((joinHandler cfg pr st now tok body).1.error = some "timestamp must be an ISO string" →
      (joinHandler cfg pr st now tok body).1.status = 400) ∧
    ((joinHandler cfg pr st now tok body).1.status = 400 →
      (joinHandler cfg pr st now tok body).2 = st) ∧
    ((truthy body.agent_id = true ∧ truthy body.pubkey = true ∧ truthy body.nonce = true ∧
          truthy body.signature = true ∧ truthy body.timestamp = true) →
    ((alookup st.challenges (body.nonce.getD "") = none →
    joinHandler cfg pr st now tok body
      = (unauthorized "challenge not found or expired", st)) ∧
    (∀ ch : Challenge, alookup st.challenges (body.nonce.getD "") = some ch →
    (((ch.agentId ≠ body.agent_id.getD "" ∨ ch.pubkey ≠ body.pubkey.getD "") →
    joinHandler cfg pr st now tok body
      = (unauthorized "challenge does not match agent_id or pubkey", st)) ∧
    (¬(ch.agentId ≠ body.agent_id.getD "" ∨ ch.pubkey ≠ body.pubkey.getD "") →
    ((ch.hiveId ≠ body.hive_id.getD ch.hiveId →
    joinHandler cfg pr st now tok body
      = (unauthorized "hive_id mismatch", st)) ∧
    (¬(ch.hiveId ≠ body.hive_id.getD ch.hiveId) →
    ((ch.expiresAt ≠ body.expires_at.getD ch.expiresAt →
    joinHandler cfg pr st now tok body
      = (unauthorized "expires_at mismatch", st)) ∧
    (¬(ch.expiresAt ≠ body.expires_at.getD ch.expiresAt) →
    (((pr.dateParse ch.expiresAt = none ∨
      ∃ e, pr.dateParse ch.expiresAt = some e ∧ e < now) →
    joinHandler cfg pr st now tok body
      = (unauthorized "challenge expired",
         { st with challenges := aerase st.challenges (body.nonce.getD "") })) ∧
    (∀ e : Int, pr.dateParse ch.expiresAt = some e → ¬ e < now →
    ((pr.dateParse (body.timestamp.getD "") = none →
    joinHandler cfg pr st now tok body
      = (badRequest "timestamp must be an ISO string", st)) ∧
    (∀ tms : Int, pr.dateParse (body.timestamp.getD "") = some tms →
    ((jsAbs (now - tms) > MAX_CLOCK_SKEW_MS →
    joinHandler cfg pr st now tok body
      = (unauthorized "timestamp outside allowed clock skew", st)) ∧
    (¬ jsAbs (now - tms) > MAX_CLOCK_SKEW_MS →
    (((cfg.deviceProofRequired = true ∨
      truthy body.openclaw_device_public_key = true ∨
      truthy body.openclaw_device_signature = true ∨
      truthy body.openclaw_device_nonce = true ∨
      truthy body.openclaw_device_signed_at = true) →
    ((¬(truthy body.openclaw_device_public_key = true ∧
      truthy body.openclaw_device_signature = true ∧
      truthy body.openclaw_device_nonce = true ∧
      truthy body.openclaw_device_signed_at = true) →
    joinHandler cfg pr st now tok body
      = (unauthorized "missing OpenClaw device proof fields", st)) ∧
    ((truthy body.openclaw_device_public_key = true ∧
      truthy body.openclaw_device_signature = true ∧
      truthy body.openclaw_device_nonce = true ∧
      truthy body.openclaw_device_signed_at = true) →
    ((verifyOpenClawDeviceProof cfg pr now
      (body.openclaw_device_public_key.getD "")
      (body.openclaw_device_signature.getD "")
      (body.openclaw_device_nonce.getD "")
      (body.openclaw_device_signed_at.getD "") = false →
    joinHandler cfg pr st now tok body
      = (unauthorized "invalid OpenClaw device proof", st)) ∧
    (verifyOpenClawDeviceProof cfg pr now
      (body.openclaw_device_public_key.getD "")
      (body.openclaw_device_signature.getD "")
      (body.openclaw_device_nonce.getD "")
      (body.openclaw_device_signed_at.getD "") = true →
    (verifyMessage pr
      (buildJoinMessage
        { agentId := ch.agentId, pubkey := ch.pubkey,
          nonce := ch.nonce, hiveId := ch.hiveId,
          challengeExpiresAt := ch.expiresAt,
          timestamp := body.timestamp.getD "" })
      (body.signature.getD "") ch.pubkey = false →
    joinHandler cfg pr st now tok body
      = (unauthorized "invalid signature", st))))))) ∧
    (¬(cfg.deviceProofRequired = true ∨
      truthy body.openclaw_device_public_key = true ∨
      truthy body.openclaw_device_signature = true ∨
      truthy body.openclaw_device_nonce = true ∨
      truthy body.openclaw_device_signed_at = true) →
    (verifyMessage pr
      (buildJoinMessage
        { agentId := ch.agentId, pubkey := ch.pubkey,
          nonce := ch.nonce, hiveId := ch.hiveId,
          challengeExpiresAt := ch.expiresAt,
          timestamp := body.timestamp.getD "" })
      (body.signature.getD "") ch.pubkey = false →
    joinHandler cfg pr st now tok body
      = (unauthorized "invalid signature", st))))))))))))))))))) := by
  have hold :
      ((joinHandler cfg pr st now tok body).1.status ≠ 200 →
        (joinHandler cfg pr st now tok body).2.sessions = st.sessions ∧
        (joinHandler cfg pr st now tok body).2.messages = st.messages ∧
        (joinHandler cfg pr st now tok body).2.peerCursors = st.peerCursors) ∧
      ((joinHandler cfg pr st now tok body).1.status = 401 →
        ((joinHandler cfg pr st now tok body).2.challenges = st.challenges ∧
          (joinHandler cfg pr st now tok body).1.error ≠ some "challenge expired") ∨
        ((joinHandler cfg pr st now tok body).1.error = some "challenge expired" ∧
          (joinHandler cfg pr st now tok body).2.challenges
            = aerase st.challenges (body.nonce.getD ""))) ∧
      ((joinHandler cfg pr st now tok body).1.error = some "timestamp must be an ISO string" →
        (joinHandler cfg pr st now tok body).1.status = 400) ∧
      ((joinHandler cfg pr st now tok body).1.status = 400 →
        (joinHandler cfg pr st now tok body).2 = st) := by
    rcases hj : joinHandler cfg pr st now tok body with ⟨resp, st2⟩
    unfold joinHandler at hj
    repeat' split at hj
    all_goals try unfold joinFinish at hj
    all_goals repeat' split at hj
    all_goals rw [Prod.mk.injEq] at hj
    all_goals obtain ⟨hr, hs2⟩ := hj
    all_goals subst hr
    all_goals subst hs2
    all_goals refine ⟨fun h1 => ?_, fun h2 => ?_, fun h3 => ?_, fun h4 => ?_⟩
    all_goals first
      | exact ⟨rfl, rfl, rfl⟩
      | rfl
      | exact Or.inl ⟨rfl, by simp [unauthorized, badRequest]⟩
      | exact Or.inr ⟨rfl, rfl⟩
      | exact absurd h2 (by simp [unauthorized, badRequest])
      | exact absurd h3 (by simp [unauthorized, badRequest])
      | exact absurd h4 (by simp [unauthorized, badRequest])
      | exact absurd rfl h1
  refine ⟨hold.1, hold.2.1, hold.2.2.1, hold.2.2.2, ?_⟩
  rintro ⟨hq1, hq2, hq3, hq4, hq5⟩
  constructor
  · intro hlook
    simp [joinHandler, hq1, hq2, hq3, hq4, hq5, hlook]
  · intro ch hlook
    constructor
    · intro hmis
      simp [joinHandler, hq1, hq2, hq3, hq4, hq5, hlook, eq_true hmis]
    · intro hb1
      constructor
      · intro hmis2
        simp [joinHandler, hq1, hq2, hq3, hq4, hq5, hlook,
          eq_false hb1, eq_true hmis2]
      · intro hb2
        constructor
        · intro hmis3
          simp [joinHandler, hq1, hq2, hq3, hq4, hq5, hlook,
            eq_false hb1, eq_false hb2, eq_true hmis3]
        · intro hb3
          constructor
          · rintro (hnone | ⟨e, he, hlt⟩)
            · simp [joinHandler, hq1, hq2, hq3, hq4, hq5, hlook,
                eq_false hb1, eq_false hb2, eq_false hb3, hnone]
            · simp [joinHandler, hq1, hq2, hq3, hq4, hq5, hlook,
                eq_false hb1, eq_false hb2, eq_false hb3, he, eq_true hlt]
          · intro e he hnl
            constructor
            · intro htn
              simp [joinHandler, hq1, hq2, hq3, hq4, hq5, hlook,
                eq_false hb1, eq_false hb2, eq_false hb3, he, eq_false hnl, htn]
            · intro tms htm
              constructor
              · intro hskew
                simp [joinHandler, hq1, hq2, hq3, hq4, hq5, hlook,
                  eq_false hb1, eq_false hb2, eq_false hb3, he, eq_false hnl,
                  htm, eq_true hskew]
              · intro hns
                constructor
                · intro hdevOn
                  constructor
                  · intro hmissFields
                    simp [joinHandler, hq1, hq2, hq3, hq4, hq5, hlook,
                      eq_false hb1, eq_false hb2, eq_false hb3, he, eq_false hnl,
                      htm, eq_false hns, eq_true hdevOn, eq_true hmissFields]
                  · rintro ⟨ha1, ha2, ha3, ha4⟩
                    constructor
                    · intro hbadDev
                      simp [joinHandler, hq1, hq2, hq3, hq4, hq5, hlook,
                        eq_false hb1, eq_false hb2, eq_false hb3, he, eq_false hnl,
                        htm, eq_false hns, eq_true hdevOn, ha1, ha2, ha3, ha4, hbadDev]
                    · intro hokDev hsig
                      simp [joinHandler, joinFinish, hq1, hq2, hq3, hq4, hq5, hlook,
                        eq_false hb1, eq_false hb2, eq_false hb3, he, eq_false hnl,
                        htm, eq_false hns, eq_true hdevOn, ha1, ha2, ha3, ha4,
                        hokDev, hsig]
                · intro hdevOff hsig
                  simp [joinHandler, joinFinish, hq1, hq2, hq3, hq4, hq5, hlook,
                    eq_false hb1, eq_false hb2, eq_false hb3, he, eq_false hnl,
                    htm, eq_false hns, eq_false hdevOff, hsig]

/-- C4 counterexample: a join request passing nonce lookup, binding checks
and challenge expiry but carrying an unparseable timestamp is rejected with
HTTP 400, not 401 as the claim asserts for the timestamp-parse
precondition. -/
theorem c4_counterexample :
    (joinHandler cCfg cPrims c4State 100 "tok" c4Body).1.status = 400 ∧
    (joinHandler cCfg cPrims c4State 100 "tok" c4Body).1.status ≠ 401 ∧
    (joinHandler cCfg cPrims c4State 100 "tok" c4Body).1.error
      = some "timestamp must be an ISO string" := by
  decide

/-- C4 witness: the failure-mode theorem applied at four concrete requests —
an unknown nonce (401, challenge not found), an expired challenge (401,
challenge deleted), an invalid signature (401), and an unparseable timestamp
(400 with the state fully unchanged). -/
theorem c4_witness :
    joinHandler cCfg cPrims c4State 100 "tok" c4BodyMissing
      = (unauthorized "challenge not found or expired", c4State) ∧
    joinHandler cCfg cPrims c4State 200000 "tok" c4BodyLate
      = (unauthorized "challenge expired",
         { c4State with challenges := aerase c4State.challenges "N" }) ∧
    joinHandler cCfg cPrims c4State 100 "tok" c4BodySig
      = (unauthorized "invalid signature", c4State) ∧
    (joinHandler cCfg cPrims c4State 100 "tok" c4Body).2 = c4State ∧
    (joinHandler cCfg cPrims c4State 100 "tok" c4Body).1.status = 400 := by
  refine ⟨?_, ?_, ?_, ?_, by decide⟩
  · exact ((c4_join_failures cCfg cPrims c4State 100 "tok" c4BodyMissing).2.2.2.2
      (by decide)).1 (by decide)
  · have q := ((c4_join_failures cCfg cPrims c4State 200000 "tok" c4BodyLate).2.2.2.2
      (by decide)).2 c4Challenge (by decide)
    have r := ((q.2 (by decide)).2 (by decide)).2 (by decide)
    exact r.1 (Or.inr ⟨120000, by decide, by decide⟩)
  · have q := ((c4_join_failures cCfg cPrims c4State 100 "tok" c4BodySig).2.2.2.2
      (by decide)).2 c4Challenge (by decide)
    have r := ((q.2 (by decide)).2 (by decide)).2 (by decide)
    have r2 := (r.2 120000 (by decide) (by decide)).2 100 (by decide)
    exact (r2.2 (by decide)).2 (by decide) (by decide)
  · exact (c4_join_failures cCfg cPrims c4State 100 "tok" c4Body).2.2.2.1 (by decide)

/-! ## C1: issue then join succeeds exactly once -/

/-- C1: for every syntactically valid identity (non-empty fields, valid
public key) and fresh nonce, issuing a challenge and immediately joining
with a correctly signed canonical message (within the expiry and clock-skew
windows, no device proof configured) succeeds: HTTP 200, a session minted
under the fresh token with `expiresAt = now + SESSION_TTL_MS`, and the
Challenge deleted; a second join carrying the same nonce is rejected with
HTTP 401 "challenge not found or expired" and leaves the state unchanged. -/
theorem c1_issue_then_join_single_use
    (cfg : Config) (pr : Prims) (st0 : ServerState) (now0 now1 now2 : Int)
    (agentId pubkey hiveId nonce sig tstr tok1 tok2 : String) (ce tms : Int)
    (hAgent : agentId ≠ "") (hPub : pubkey ≠ "") (hNonce : nonce ≠ "")
    (hSig : sig ≠ "") (hTs : tstr ≠ "")
    (hKey : isValidSolanaPublicKey pr pubkey = true)
    (hDev : cfg.deviceProofRequired = false)
    (hParse : pr.dateParse (pr.isoOf (now0 + CHALLENGE_TTL_MS)) = some ce)
    (hNotExpired : ¬ ce < now1)
    (hTsParse : pr.dateParse tstr = some tms)
    (hSkew : ¬ jsAbs (now1 - tms) > MAX_CLOCK_SKEW_MS)
    (hVerify : verifyMessage pr
      (buildJoinMessage
        { agentId := agentId, pubkey := pubkey, nonce := nonce, hiveId := hiveId,
          challengeExpiresAt := pr.isoOf (now0 + CHALLENGE_TTL_MS), timestamp := tstr })
      sig pubkey = true)
    (jb : JoinBody)
    (hjb : jb = { agent_id := some agentId, pubkey := some pubkey, nonce := some nonce,
                  signature := some sig, timestamp := some tstr, hive_id := some hiveId })
    (st1 : ServerState)
    (hst1 : st1 = (challengeHandler cfg pr st0 now0 nonce
      { agent_id := some agentId, pubkey := some pubkey, hive_id := some hiveId }).2) :
    (joinHandler cfg pr st1 now1 tok1 jb).1.status = 200 ∧
    (joinHandler cfg pr st1 now1 tok1 jb).1.token = some tok1 ∧
    alookup (joinHandler cfg pr st1 now1 tok1 jb).2.sessions tok1
      = some { agentId := agentId, pubkey := pubkey, hiveId := hiveId,
               expiresAt := now1 + SESSION_TTL_MS } ∧
    alookup (joinHandler cfg pr st1 now1 tok1 jb).2.challenges nonce = none ∧
    (joinHandler cfg pr (joinHandler cfg pr st1 now1 tok1 jb).2 now2 tok2 jb).1
      = unauthorized "challenge not found or expired" ∧
    (joinHandler cfg pr (joinHandler cfg pr st1 now1 tok1 jb).2 now2 tok2 jb).2
      = (joinHandler cfg pr st1 now1 tok1 jb).2 := by
  subst hjb
  have hch : st1 = { st0 with
      challenges := aset (cleanupChallenges pr now0 st0.challenges) nonce
        { agentId := agentId, pubkey := pubkey, nonce := nonce, hiveId := hiveId,
          expiresAt := pr.isoOf (now0 + CHALLENGE_TTL_MS) } } := by
    rw [hst1]
    unfold challengeHandler
    rw [if_neg (by simp [truthy, hAgent, hPub])]
    rw [if_neg (by simp [hKey])]
    rfl
  subst hch
  have hjoin : joinHandler cfg pr
      { st0 with
          challenges := aset (cleanupChallenges pr now0 st0.challenges) nonce
            { agentId := agentId, pubkey := pubkey, nonce := nonce, hiveId := hiveId,
              expiresAt := pr.isoOf (now0 + CHALLENGE_TTL_MS) } }
      now1 tok1
      { agent_id := some agentId, pubkey := some pubkey, nonce := some nonce,
        signature := some sig, timestamp := some tstr, hive_id := some hiveId }
      = ({ status := 200, error := none, token := some tok1,
           sessionExpiresAt := some (now1 + SESSION_TTL_MS) },
         { st0 with
             challenges := aerase
               (aset (cleanupChallenges pr now0 st0.challenges) nonce
                 { agentId := agentId, pubkey := pubkey, nonce := nonce, hiveId := hiveId,
                   expiresAt := pr.isoOf (now0 + CHALLENGE_TTL_MS) }) nonce,
             sessions := aset st0.sessions tok1
               { agentId := agentId, pubkey := pubkey, hiveId := hiveId,
                 expiresAt := now1 + SESSION_TTL_MS } }) := by
    simp [joinHandler, joinFinish, truthy, hAgent, hPub, hNonce, hSig, hTs,
      alookup_aset_self, hParse, hNotExpired, hTsParse, hSkew, hDev, hVerify]
  rw [hjoin]
  have hsecond : joinHandler cfg pr
      { st0 with
          challenges := aerase
            (aset (cleanupChallenges pr now0 st0.challenges) nonce
              { agentId := agentId, pubkey := pubkey, nonce := nonce, hiveId := hiveId,
                expiresAt := pr.isoOf (now0 + CHALLENGE_TTL_MS) }) nonce,
          sessions := aset st0.sessions tok1
            { agentId := agentId, pubkey := pubkey, hiveId := hiveId,
              expiresAt := now1 + SESSION_TTL_MS } }
      now2 tok2
      { agent_id := some agentId, pubkey := some pubkey, nonce := some nonce,
        signature := some sig, timestamp := some tstr, hive_id := some hiveId }
      = (unauthorized "challenge not found or expired",
         { st0 with
             challenges := aerase
               (aset (cleanupChallenges pr now0 st0.challenges) nonce
                 { agentId := agentId, pubkey := pubkey, nonce := nonce, hiveId := hiveId,
                   expiresAt := pr.isoOf (now0 + CHALLENGE_TTL_MS) }) nonce,
             sessions := aset st0.sessions tok1
               { agentId := agentId, pubkey := pubkey, hiveId := hiveId,
                 expiresAt := now1 + SESSION_TTL_MS } }) := by
    simp [joinHandler, truthy, hAgent, hPub, hNonce, hSig, hTs, alookup_aerase_self]
  rw [hsecond]
  exact ⟨rfl, rfl, alookup_aset_self st0.sessions tok1 _, alookup_aerase_self _ nonce, rfl, rfl⟩

/-- C1 witness: the whole issue-then-join flow run on concrete inputs. -/
theorem c1_witness :
    (joinHandler cCfg cPrims
      (challengeHandler cCfg cPrims emptyState 0 "N1"
        { agent_id := some "a", pubkey := some "PK", hive_id := some "hh" }).2
      100 "t1" c1wBody).1.status = 200 ∧
    (joinHandler cCfg cPrims
      (challengeHandler cCfg cPrims emptyState 0 "N1"
        { agent_id := some "a", pubkey := some "PK", hive_id := some "hh" }).2
      100 "t1" c1wBody).1.token = some "t1" ∧
    alookup (joinHandler cCfg cPrims
      (challengeHandler cCfg cPrims emptyState 0 "N1"
        { agent_id := some "a", pubkey := some "PK", hive_id := some "hh" }).2
      100 "t1" c1wBody).2.sessions "t1"
      = some { agentId := "a", pubkey := "PK", hiveId := "hh",
               expiresAt := 100 + SESSION_TTL_MS } ∧
    alookup (joinHandler cCfg cPrims
      (challengeHandler cCfg cPrims emptyState 0 "N1"
        { agent_id := some "a", pubkey := some "PK", hive_id := some "hh" }).2
      100 "t1" c1wBody).2.challenges "N1" = none ∧
    (joinHandler cCfg cPrims
      (joinHandler cCfg cPrims
        (challengeHandler cCfg cPrims emptyState 0 "N1"
          { agent_id := some "a", pubkey := some "PK", hive_id := some "hh" }).2
        100 "t1" c1wBody).2
      101 "t2" c1wBody).1 = unauthorized "challenge not found or expired" ∧
    (joinHandler cCfg cPrims
      (joinHandler cCfg cPrims
        (challengeHandler cCfg cPrims emptyState 0 "N1"
          { agent_id := some "a", pubkey := some "PK", hive_id := some "hh" }).2
        100 "t1" c1wBody).2
      101 "t2" c1wBody).2
      = (joinHandler cCfg cPrims
          (challengeHandler cCfg cPrims emptyState 0 "N1"
            { agent_id := some "a", pubkey := some "PK", hive_id := some "hh" }).2
          100 "t1" c1wBody).2 :=
  c1_issue_then_join_single_use cCfg cPrims emptyState 0 100 101
    "a" "PK" "hh" "N1" "SIG" "100" "t1" "t2" 120000 100
    (by decide) (by decide) (by decide) (by decide) (by decide)
    (by decide) rfl (by decide) (by decide) (by decide) (by decide) (by decide)
    c1wBody rfl _ rfl

/-! ## C3: gossip convergence between two peered stores -/

theorem mergeBatch_uid_spec (h : String) (pr : Prims) (now : Int) :
    ∀ (L : List (Option GossipMsg)) (st : ServerState) (mx : Int),
    (∀ e ∈ L, viableEntry h e) →
    ∀ u : String,
      (u ∈ allUids (mergeBatch h pr now st mx L).1 ↔
        u ∈ allUids st ∨ u ∈ entryUids L) ∧
      (u ∈ hiveUids h (mergeBatch h pr now st mx L).1 ↔
        u ∈ hiveUids h st ∨ (u ∈ entryUids L ∧ u ∉ allUids st)) := by
  intro L
  induction L with
  | nil =>
    intro st mx _ u
    constructor <;> simp [mergeBatch, entryUids]
  | cons e t ih =>
    intro st mx Hv u
    rcases Hv e (List.mem_cons_self e t) with ⟨g, rfl, hgh, ⟨u0, hgu, hu0⟩, ⟨c0, hgc, hc0⟩⟩
    have HvT : ∀ e' ∈ t, viableEntry h e' := fun e' he' => Hv e' (List.mem_cons_of_mem _ he')
    have hnu : (normalizeGossip pr now g).uid = u0 := by simp [normalizeGossip, hgu]
    have hnh : (normalizeGossip pr now g).hiveId = h := by simp [normalizeGossip, hgh]
    have hE : entryUids (some g :: t) = u0 :: entryUids t := by simp [entryUids, hgu]
    have hnoskip : ¬(g.hiveId ≠ some h ∨ ¬ truthy g.uid = true) := by
      simp [hgh, hgu, truthy, hu0]
    by_cases hdup : st.messages.any (fun m => m.uid == (normalizeGossip pr now g).uid) = true
    · have hu0mem : u0 ∈ allUids st := by
        rw [hnu] at hdup
        exact (any_uid_iff st u0).mp hdup
      have hstep : mergeStep h pr now (st, mx) (some g) = (st, mx) := by
        simp only [mergeStep]
        rw [if_neg hnoskip]
        simp [storeMessage_dup st _ hdup]
      have hfold : mergeBatch h pr now st mx (some g :: t)
          = mergeBatch h pr now st mx t := by
        simp only [mergeBatch, List.foldl_cons, hstep]
      rw [hfold, hE]
      obtain ⟨iha, ihh⟩ := ih st mx HvT u
      constructor
      · rw [iha]
        constructor
        · rintro (h1 | h2)
          · exact Or.inl h1
          · exact Or.inr (List.mem_cons_of_mem _ h2)
        · rintro (h1 | h2)
          · exact Or.inl h1
          · rcases List.mem_cons.mp h2 with rfl | h3
            · exact Or.inl hu0mem
            · exact Or.inr h3
      · rw [ihh]
        constructor
        · rintro (h1 | ⟨h2, h3⟩)
          · exact Or.inl h1
          · exact Or.inr ⟨List.mem_cons_of_mem _ h2, h3⟩
        · rintro (h1 | ⟨h2, h3⟩)
          · exact Or.inl h1
          · rcases List.mem_cons.mp h2 with rfl | h4
            · exact absurd hu0mem h3
            · exact Or.inr ⟨h4, h3⟩
    · have hfr : st.messages.any (fun m => m.uid == (normalizeGossip pr now g).uid) = false :=
        Bool.eq_false_iff.mpr hdup
      have hfresh0 : u0 ∉ allUids st := by
        intro hmem
        rw [hnu] at hfr
        rw [(any_uid_iff st u0).mpr hmem] at hfr
        exact absurd hfr (by simp)
      have hstore := storeMessage_fresh st (normalizeGossip pr now g) hfr
      have hstep : mergeStep h pr now (st, mx) (some g) =
          ({ st with
               messages := st.messages ++
                 [{ id := st.nextMessageId, uid := (normalizeGossip pr now g).uid,
                    ts := (normalizeGossip pr now g).ts,
                    createdAtMs := (normalizeGossip pr now g).createdAtMs,
                    agentId := (normalizeGossip pr now g).agentId,
                    hiveId := (normalizeGossip pr now g).hiveId,
                    content := (normalizeGossip pr now g).content,
                    channel := (normalizeGossip pr now g).channel,
                    source := (normalizeGossip pr now g).source }],
               nextMessageId := st.nextMessageId + 1 },
           match (normalizeGossip pr now g).createdAtMs with
           | some c => max mx c
           | none => mx) := by
        simp only [mergeStep]
        rw [if_neg hnoskip]
        simp only [hstore]
      have hfold : mergeBatch h pr now st mx (some g :: t)
          = mergeBatch h pr now
              { st with
                  messages := st.messages ++
                    [{ id := st.nextMessageId, uid := (normalizeGossip pr now g).uid,
                       ts := (normalizeGossip pr now g).ts,
                       createdAtMs := (normalizeGossip pr now g).createdAtMs,
                       agentId := (normalizeGossip pr now g).agentId,
                       hiveId := (normalizeGossip pr now g).hiveId,
                       content := (normalizeGossip pr now g).content,
                       channel := (normalizeGossip pr now g).channel,
                       source := (normalizeGossip pr now g).source }],
                  nextMessageId := st.nextMessageId + 1 }
              (match (normalizeGossip pr now g).createdAtMs with
               | some c => max mx c
               | none => mx) t := by
        simp only [mergeBatch, List.foldl_cons, hstep]
      rw [hfold, hE]
      obtain ⟨iha, ihh⟩ := ih
        { st with
            messages := st.messages ++
              [{ id := st.nextMessageId, uid := (normalizeGossip pr now g).uid,
                 ts := (normalizeGossip pr now g).ts,
                 createdAtMs := (normalizeGossip pr now g).createdAtMs,
                 agentId := (normalizeGossip pr now g).agentId,
                 hiveId := (normalizeGossip pr now g).hiveId,
                 content := (normalizeGossip pr now g).content,
                 channel := (normalizeGossip pr now g).channel,
                 source := (normalizeGossip pr now g).source }],
            nextMessageId := st.nextMessageId + 1 }
        (match (normalizeGossip pr now g).createdAtMs with
         | some c => max mx c
         | none => mx) HvT u
      have hall1 : ∀ v : String, v ∈ allUids
          { st with
              messages := st.messages ++
                [{ id := st.nextMessageId, uid := (normalizeGossip pr now g).uid,
                   ts := (normalizeGossip pr now g).ts,
                   createdAtMs := (normalizeGossip pr now g).createdAtMs,
                   agentId := (normalizeGossip pr now g).agentId,
                   hiveId := (normalizeGossip pr now g).hiveId,
                   content := (normalizeGossip pr now g).content,
                   channel := (normalizeGossip pr now g).channel,
                   source := (normalizeGossip pr now g).source }],
              nextMessageId := st.nextMessageId + 1 }
          ↔ v ∈ allUids st ∨ v = u0 := by
        intro v
        simp [allUids, hnu]
      have hhive1 : ∀ v : String, v ∈ hiveUids h
          { st with
              messages := st.messages ++
                [{ id := st.nextMessageId, uid := (normalizeGossip pr now g).uid,
                   ts := (normalizeGossip pr now g).ts,
                   createdAtMs := (normalizeGossip pr now g).createdAtMs,
                   agentId := (normalizeGossip pr now g).agentId,
                   hiveId := (normalizeGossip pr now g).hiveId,
                   content := (normalizeGossip pr now g).content,
                   channel := (normalizeGossip pr now g).channel,
                   source := (normalizeGossip pr now g).source }],
              nextMessageId := st.nextMessageId + 1 }
          ↔ v ∈ hiveUids h st ∨ v = u0 := by
        intro v
        simp [hiveUids, List.filter_append, hnh, hnu]
      constructor
      · rw [iha, hall1 u]
        constructor
        · rintro ((h1 | h1) | h2)
          · exact Or.inl h1
          · exact Or.inr (h1 ▸ List.mem_cons_self _ _)
          · exact Or.inr (List.mem_cons_of_mem _ h2)
        · rintro (h1 | h2)
          · exact Or.inl (Or.inl h1)
          · rcases List.mem_cons.mp h2 with rfl | h3
            · exact Or.inl (Or.inr rfl)
            · exact Or.inr h3
      · rw [ihh, hhive1 u]
        constructor
        · rintro ((h1 | h1) | ⟨h2, h3⟩)
          · exact Or.inl h1
          · subst h1
            exact Or.inr ⟨List.mem_cons_self _ _, hfresh0⟩
          · rw [hall1 u] at h3
            exact Or.inr ⟨List.mem_cons_of_mem _ h2,
              fun hh => h3 (Or.inl hh)⟩
        · rintro (h1 | ⟨h2, h3⟩)
          · exact Or.inl (Or.inl h1)
          · rcases List.mem_cons.mp h2 with rfl | h4
            · exact Or.inl (Or.inr rfl)
            · by_cases hu : u = u0
              · exact Or.inl (Or.inr hu)
              · refine Or.inr ⟨h4, ?_⟩
                rw [hall1 u]
                rintro (hh | hh)
                · exact h3 hh
                · exact hu hh

theorem mergeBatch_msgs_spec (h : String) (pr : Prims) (now : Int) :
    ∀ (L : List (Option GossipMsg)) (st : ServerState) (mx : Int),
    (∀ e ∈ L, viableEntry h e) →
    ∀ m ∈ (mergeBatch h pr now st mx L).1.messages,
      m ∈ st.messages ∨ (m.hiveId = h ∧ m.uid ≠ "" ∧ ∃ c, m.createdAtMs = some c ∧ 0 ≤ c) := by
  intro L
  induction L with
  | nil =>
    intro st mx _ m hm
    exact Or.inl (by simpa [mergeBatch] using hm)
  | cons e t ih =>
    intro st mx Hv m hm
    rcases Hv e (List.mem_cons_self e t) with ⟨g, rfl, hgh, ⟨u0, hgu, hu0⟩, ⟨c0, hgc, hc0⟩⟩
    have HvT : ∀ e' ∈ t, viableEntry h e' := fun e' he' => Hv e' (List.mem_cons_of_mem _ he')
    have hnu : (normalizeGossip pr now g).uid = u0 := by simp [normalizeGossip, hgu]
    have hnh : (normalizeGossip pr now g).hiveId = h := by simp [normalizeGossip, hgh]
    have hnc : (normalizeGossip pr now g).createdAtMs = some c0 := by
      simp [normalizeGossip, hgc]
    have hnoskip : ¬(g.hiveId ≠ some h ∨ ¬ truthy g.uid = true) := by
      simp [hgh, hgu, truthy, hu0]
    by_cases hdup : st.messages.any (fun m => m.uid == (normalizeGossip pr now g).uid) = true
    · have hstep : mergeStep h pr now (st, mx) (some g) = (st, mx) := by
        simp only [mergeStep]
        rw [if_neg hnoskip]
        simp [storeMessage_dup st _ hdup]
      have hfold : mergeBatch h pr now st mx (some g :: t)
          = mergeBatch h pr now st mx t := by
        simp only [mergeBatch, List.foldl_cons, hstep]
      rw [hfold] at hm
      exact ih st mx HvT m hm
    · have hfr : st.messages.any (fun m => m.uid == (normalizeGossip pr now g).uid) = false :=
        Bool.eq_false_iff.mpr hdup
      have hstore := storeMessage_fresh st (normalizeGossip pr now g) hfr
      have hstep : mergeStep h pr now (st, mx) (some g) =
          ({ st with
               messages := st.messages ++
                 [{ id := st.nextMessageId, uid := (normalizeGossip pr now g).uid,
                    ts := (normalizeGossip pr now g).ts,
                    createdAtMs := (normalizeGossip pr now g).createdAtMs,
                    agentId := (normalizeGossip pr now g).agentId,
                    hiveId := (normalizeGossip pr now g).hiveId,
                    content := (normalizeGossip pr now g).content,
                    channel := (normalizeGossip pr now g).channel,
                    source := (normalizeGossip pr now g).source }],
               nextMessageId := st.nextMessageId + 1 },
           match (normalizeGossip pr now g).createdAtMs with
           | some c => max mx c
           | none => mx) := by
        simp only [mergeStep]
        rw [if_neg hnoskip]
        simp only [hstore]
      have hfold : mergeBatch h pr now st mx (some g :: t)
          = mergeBatch h pr now
              { st with
                  messages := st.messages ++
                    [{ id := st.nextMessageId, uid := (normalizeGossip pr now g).uid,
                       ts := (normalizeGossip pr now g).ts,
                       createdAtMs := (normalizeGossip pr now g).createdAtMs,
                       agentId := (normalizeGossip pr now g).agentId,
                       hiveId := (normalizeGossip pr now g).hiveId,
                       content := (normalizeGossip pr now g).content,
                       channel := (normalizeGossip pr now g).channel,
                       source := (normalizeGossip pr now g).source }],
                  nextMessageId := st.nextMessageId + 1 }
              (match (normalizeGossip pr now g).createdAtMs with
               | some c => max mx c
               | none => mx) t := by
        simp only [mergeBatch, List.foldl_cons, hstep]
      rw [hfold] at hm
      rcases ih _ _ HvT m hm with hin | hwf
      · rcases List.mem_append.mp hin with h1 | h2
        · exact Or.inl h1
        · rcases List.mem_singleton.mp h2 with rfl
          refine Or.inr ⟨hnh, ?_, c0, hnc, hc0⟩
          rw [hnu]
          exact hu0
      · exact Or.inr hwf

theorem pollPeerBatch_messages (cfgHive : String) (pr : Prims) (now : Int) (peer : String)
    (incoming : List (Option GossipMsg)) (st : ServerState) :
    (pollPeerBatch cfgHive pr now peer incoming st).messages
      = (mergeBatch cfgHive pr now st (peerCursorOf st peer) incoming).1.messages := by
  simp only [pollPeerBatch, peerCursorOf]
  split <;> rfl

/-- Pulling `remote` once into `here` from a fresh cursor: the hive's uid set
becomes the union, the over-all uid set grows exactly by the remote hive's
uids, and every record either was already present or is a well-formed
gossip-accepted hive record. -/
theorem pollFrom_spec (h : String) (pr : Prims) (now : Int) (peer : String)
    (remote here : ServerState)
    (Hw : wfHive h remote)
    (Hc : alookup here.peerCursors peer = none) :
    (∀ u, u ∈ allUids (pollFrom h pr now peer remote here) ↔
        u ∈ allUids here ∨ u ∈ hiveUids h remote) ∧
    (∀ u, u ∈ hiveUids h (pollFrom h pr now peer remote here) ↔
        u ∈ hiveUids h here ∨ (u ∈ hiveUids h remote ∧ u ∉ allUids here)) ∧
    (∀ m ∈ (pollFrom h pr now peer remote here).messages,
      m ∈ here.messages ∨ (m.hiveId = h ∧ m.uid ≠ "" ∧ ∃ c, m.createdAtMs = some c ∧ 0 ≤ c)) := by
  have hpoll : pollFrom h pr now peer remote here
      = pollPeerBatch h pr now peer
          ((gossipFeed remote h 0).map (fun m => some (gossipView m))) here := by
    unfold pollFrom
    rw [Hc]
    rfl
  have hcz : peerCursorOf here peer = 0 := by
    unfold peerCursorOf
    rw [Hc]
    rfl
  have HvL : ∀ e ∈ (gossipFeed remote h 0).map (fun m => some (gossipView m)), viableEntry h e := by
    intro e he
    rcases List.mem_map.mp he with ⟨m, hm, rfl⟩
    rcases List.mem_filter.mp hm with ⟨hmem, hpred⟩
    simp only [Bool.and_eq_true] at hpred
    have hhive : m.hiveId = h := by simpa using hpred.1
    rcases Hw m hmem hhive with ⟨hune, c, hcm, hcge⟩
    refine ⟨gossipView m, rfl, by simp [gossipView, hhive], ⟨m.uid, rfl, hune⟩,
      ⟨c, ?_, hcge⟩⟩
    simp [gossipView, hcm]
  have huids : ∀ u, u ∈ entryUids ((gossipFeed remote h 0).map (fun m => some (gossipView m)))
      ↔ u ∈ hiveUids h remote := by
    intro u
    simp only [entryUids, List.filterMap_map]
    constructor
    · intro hu
      rcases List.mem_filterMap.mp hu with ⟨m, hm, he⟩
      rcases List.mem_filter.mp hm with ⟨hmem, hpred⟩
      simp only [Bool.and_eq_true] at hpred
      have hhive : m.hiveId = h := by simpa using hpred.1
      have : m.uid = u := by
        simpa [Function.comp, gossipView] using he
      exact List.mem_map.mpr ⟨m, List.mem_filter.mpr ⟨hmem, by simp [hhive]⟩, this⟩
    · intro hu
      rcases List.mem_map.mp hu with ⟨m, hm, rfl⟩
      rcases List.mem_filter.mp hm with ⟨hmem, hpred⟩
      have hhive : m.hiveId = h := by simpa using hpred
      rcases Hw m hmem hhive with ⟨_, c, hcm, hcge⟩
      refine List.mem_filterMap.mpr ⟨m, List.mem_filter.mpr ⟨hmem, ?_⟩, by simp [gossipView]⟩
      simp [hhive, jsGeOpt, hcm]
      exact hcge
  have hmsgs : (pollFrom h pr now peer remote here).messages
      = (mergeBatch h pr now here 0
          ((gossipFeed remote h 0).map (fun m => some (gossipView m)))).1.messages := by
    rw [hpoll, pollPeerBatch_messages, hcz]
  refine ⟨?_, ?_, ?_⟩
  · intro u
    have hspec := (mergeBatch_uid_spec h pr now
      ((gossipFeed remote h 0).map (fun m => some (gossipView m))) here 0 HvL u).1
    have : u ∈ allUids (pollFrom h pr now peer remote here) ↔
        u ∈ allUids (mergeBatch h pr now here 0
          ((gossipFeed remote h 0).map (fun m => some (gossipView m)))).1 := by
      unfold allUids
      rw [hmsgs]
    rw [this, hspec, huids u]
  · intro u
    have hspec := (mergeBatch_uid_spec h pr now
      ((gossipFeed remote h 0).map (fun m => some (gossipView m))) here 0 HvL u).2
    have : u ∈ hiveUids h (pollFrom h pr now peer remote here) ↔
        u ∈ hiveUids h (mergeBatch h pr now here 0
          ((gossipFeed remote h 0).map (fun m => some (gossipView m)))).1 := by
      unfold hiveUids
      rw [hmsgs]
    rw [this, hspec, huids u]
  · intro m hm
    rw [hmsgs] at hm
    exact mergeBatch_msgs_spec h pr now _ here 0 HvL m hm

/-- After `x` pulls from `y` and then `y` pulls from the updated `x`, the two
stores agree on the hive's uid set (under well-formed stores, fresh cursors,
and no cross-hive uid collisions between the two stores). -/
theorem two_poll_hive_eq (h : String) (pr : Prims) (n1 n2 : Int) (px py : String)
    (x y : ServerState)
    (Hwx : wfHive h x) (Hwy : wfHive h y)
    (Hyx : ∀ u, u ∈ hiveUids h y → u ∈ allUids x → u ∈ hiveUids h x)
    (Hxy : ∀ u, u ∈ hiveUids h x → u ∈ allUids y → u ∈ hiveUids h y)
    (Hcx : alookup x.peerCursors px = none)
    (Hcy : alookup y.peerCursors py = none) :
    ∀ u, u ∈ hiveUids h (pollFrom h pr n2 py (pollFrom h pr n1 px y x) y) ↔
         u ∈ hiveUids h (pollFrom h pr n1 px y x) := by
  obtain ⟨SxA, SxH, SxM⟩ := pollFrom_spec h pr n1 px y x Hwy Hcx
  have Hwx1 : wfHive h (pollFrom h pr n1 px y x) := by
    intro m hm hh
    rcases SxM m hm with hin | ⟨_, hu, hc⟩
    · exact Hwx m hin hh
    · exact ⟨hu, hc⟩
  obtain ⟨SyA, SyH, _⟩ := pollFrom_spec h pr n2 py (pollFrom h pr n1 px y x) y Hwx1 Hcy
  intro u
  rw [SyH u]
  constructor
  · rintro (h1 | ⟨h2, _⟩)
    · rw [SxH u]
      by_cases hx : u ∈ allUids x
      · exact Or.inl (Hyx u h1 hx)
      · exact Or.inr ⟨h1, hx⟩
    · exact h2
  · intro h1
    by_cases hy : u ∈ allUids y
    · left
      rcases (SxH u).mp h1 with h2 | ⟨h2, _⟩
      · exact Hxy u h2 hy
      · exact h2
    · exact Or.inr ⟨h1, hy⟩

/-- C3: two quiescent stores configured as peers of each other, with
well-formed hive records (non-empty uid, finite non-negative timestamp),
fresh peer cursors, and no cross-hive uid collisions, converge to the same
hive uid set after one poll by each side — in either order the two polls
run. -/
theorem c3_gossip_convergence (h : String) (pr : Prims) (n1 n2 : Int) (pa pb : String)
    (a b : ServerState)
    (Hwa : wfHive h a) (Hwb : wfHive h b)
    (Hab : ∀ u, u ∈ hiveUids h b → u ∈ allUids a → u ∈ hiveUids h a)
    (Hba : ∀ u, u ∈ hiveUids h a → u ∈ allUids b → u ∈ hiveUids h b)
    (Hca : alookup a.peerCursors pb = none)
    (Hcb : alookup b.peerCursors pa = none) :
    (∀ u, u ∈ hiveUids h (pollFrom h pr n2 pa (pollFrom h pr n1 pb b a) b) ↔
          u ∈ hiveUids h (pollFrom h pr n1 pb b a)) ∧
    (∀ u, u ∈ hiveUids h (pollFrom h pr n2 pb (pollFrom h pr n1 pa a b) a) ↔
          u ∈ hiveUids h (pollFrom h pr n1 pa a b)) :=
  ⟨two_poll_hive_eq h pr n1 n2 pb pa a b Hwa Hwb Hab Hba Hca Hcb,
   two_poll_hive_eq h pr n1 n2 pa pb b a Hwb Hwa Hba Hab Hcb Hca⟩

/-- C3 witness: two concrete one-message stores converge on uid "ua". -/
theorem c3_witness :
    ("ua" ∈ hiveUids "h" (pollFrom "h" cPrims 9 "pa" (pollFrom "h" cPrims 9 "pb" c3StateB c3StateA) c3StateB) ↔
     "ua" ∈ hiveUids "h" (pollFrom "h" cPrims 9 "pb" c3StateB c3StateA)) :=
  (c3_gossip_convergence "h" cPrims 9 9 "pa" "pb" c3StateA c3StateB
    (by
      intro m hm hh
      simp only [c3StateA, List.mem_singleton] at hm
      subst hm
      exact ⟨by decide, 1, rfl, by decide⟩)
    (by
      intro m hm hh
      simp only [c3StateB, List.mem_singleton] at hm
      subst hm
      exact ⟨by decide, 2, rfl, by decide⟩)
    (by
      intro u hu ha
      simp [hiveUids, allUids, c3StateA, c3StateB, c3MsgA, c3MsgB] at hu ha
      rw [hu] at ha
      exact absurd ha (by decide))
    (by
      intro u hu hb
      simp [hiveUids, allUids, c3StateA, c3StateB, c3MsgA, c3MsgB] at hu hb
      rw [hu] at hb
      exact absurd hb (by decide))
    rfl rfl).1 "ua"
